import Mathlib

/-!
Verification development for the DaaSTrustLayer compute core.

This file shallowly embeds, in Lean 4, the parts of the repository that the
verified properties talk about:

* `app/trust/engine_v3.py` — the evidence-accumulation scoring engine
  (`RawSignals`, the four category scorers, `apply_hard_caps`,
  `compute_score`);
* `app/compute/sensors.py` — the sensor orchestration that populates
  `sources_queried` / `sources_responded`;
* `app/compute/pipeline.py` — the `CircuitBreaker` state machine and the
  `compute_trust_score` entry point;
* `app/chain/trustchain.py` — blocks, hashing, chain append and
  verification;
* `app/compute/cache.py` — the score cache (`set` / `get`);
* `app/trust/engine.py` — the v1 engine, needed because the pipeline
  fallback path calls it;
* `app/compute/pipeline_v3.py` — the `score_entity` entry point.

Modelling conventions, used throughout:

* Python `int` is `Int`, Python `float` is `Rat` (exact rational
  arithmetic in place of IEEE binary floating point; every constant that
  appears in the code is exactly representable, and the only float
  computation whose exact value a theorem uses — the v1 fallback
  composite — yields the same integer under both semantics).
* Python dicts with string keys are association structures (`CObj`) or
  association lists; `json.dumps` / `json.loads` round-trips of such
  values are modelled as the identity.
* SHA-256 is modelled as a collision-free (injective) function: the hash
  of a block is a constructor application carrying exactly the fields
  that the code serializes into the digest.  Hex digests of cache keys
  are likewise modelled as injective, i.e. as the underlying string.
* Wall-clock time is an explicit parameter of every operation that reads
  the clock.
-/

/-! ## JSON-like values (for cached score dictionaries) -/

mutual
/-- A JSON-style value as stored in the Redis score cache: booleans,
integers, rationals (Python floats), strings, null, lists of strings and
nested string-keyed objects. -/
inductive CVal where
  | vb (x : Bool)
  | vi (x : Int)
  | vq (x : Rat)
  | vs (x : String)
  | vnull
  | vlist (xs : List String)
  | vobj (xs : CObj)
deriving DecidableEq

/-- A string-keyed object (Python dict) of `CVal` values, in insertion
order. -/
inductive CObj where
  | nil
  | cons (k : String) (v : CVal) (rest : CObj)
deriving DecidableEq
end

/-- Dict lookup: value of the first (and by construction only) entry with
the given key. -/
def CObj.get : CObj → String → Option CVal
  | .nil, _ => none
  | .cons k v rest, key => if k = key then some v else rest.get key

/-- Dict assignment `d[key] = v` with Python semantics: updates the entry
in place if the key is present, otherwise appends it at the end. -/
def CObj.set : CObj → String → CVal → CObj
  | .nil, key, v => .cons key v .nil
  | .cons k w rest, key, v =>
      if k = key then .cons k v rest else .cons k w (rest.set key v)

/-- The list of keys of a dict, in order. -/
def CObj.keys : CObj → List String
  | .nil => []
  | .cons k _ rest => k :: rest.keys

/-! ## String helpers

`String.toLower`, slicing and affix tests are re-implemented on character
lists so that all definitions reduce during kernel evaluation. -/

/-- Python `s.lower()`. -/
def strLower (s : String) : String := String.mk (s.data.map Char.toLower)

/-- Python `s[:n]`. -/
def strTake (s : String) (n : Nat) : String := String.mk (s.data.take n)

/-- Does the first character list start with the second? -/
def charsStart : List Char → List Char → Bool
  | _, [] => true
  | [], _ :: _ => false
  | c :: cs, p :: ps => p == c && charsStart cs ps

/-- Python `s.startswith(p)`. -/
def strStarts (s p : String) : Bool := charsStart s.data p.data

/-- Drop the leading occurrence of `p` from `s` when present
(`s[len(p):]` guarded by `startswith`). -/
def strDropLead (s p : String) : String :=
  if strStarts s p then String.mk (s.data.drop p.data.length) else s

/-- Python `s.rstrip("/")`. -/
def strStripSlashes (s : String) : String :=
  String.mk (s.data.reverse.dropWhile (fun c => c == '/')).reverse

/-! ## engine_v3: raw signals (`app/trust/engine_v3.py`, `RawSignals`) -/

/-- Every fact the collectors know about an entity.  Field-for-field
translation of the `RawSignals` dataclass, with its Python defaults. -/
structure RawSignals where
  target : String := ""
  -- WHOIS
  domain_age_days : Int := 0
  whois_org : String := ""
  whois_registrar : String := ""
  domain_expiry_years_ahead : Rat := 0
  -- crt.sh (certificate transparency)
  ssl_valid : Bool := false
  ssl_cert_type : String := ""
  ssl_org : String := ""
  first_cert_days_ago : Int := 0
  total_certs_issued : Int := 0
  cert_issuer : String := ""
  -- VirusTotal
  vt_malicious_count : Int := 0
  vt_suspicious_count : Int := 0
  vt_clean_count : Int := 0
  vt_community_score : Int := 0
  vt_categories : List String := []
  vt_queried : Bool := false
  -- Google Safe Browsing
  gsb_flagged : Bool := false
  gsb_queried : Bool := false
  -- DNS
  dns_has_spf : Bool := false
  dns_has_dmarc : Bool := false
  dns_has_dkim : Bool := false
  dns_has_dnssec : Bool := false
  dns_has_mx : Bool := false
  -- HTTP security headers
  http_has_hsts : Bool := false
  http_has_csp : Bool := false
  http_has_xframe : Bool := false
  http_has_xcontent_type : Bool := false
  http_has_referrer_policy : Bool := false
  http_has_permissions_policy : Bool := false
  http_status : Int := 0
  -- Knowledge graph
  has_wikipedia : Bool := false
  has_wikidata : Bool := false
  has_crunchbase : Bool := false
  wikidata_employee_count : Int := 0
  wikidata_founding_year : Int := 0
  wikidata_industry : String := ""
  -- Social presence
  social_twitter : Bool := false
  social_linkedin : Bool := false
  social_github : Bool := false
  social_facebook : Bool := false
  social_youtube : Bool := false
  social_instagram : Bool := false
  social_count : Int := 0
  -- Tranco ranking (0 = not in top 1M)
  tranco_rank : Int := 0
  -- Web presence
  has_structured_data : Bool := false
  has_org_schema : Bool := false
  has_status_page : Bool := false
  has_api_docs : Bool := false
  has_changelog : Bool := false
  has_security_txt : Bool := false
  has_robots_txt : Bool := false
  -- Blocklists beyond VT
  on_spam_blocklist : Bool := false
  on_fraud_blocklist : Bool := false
  on_sanctions_list : Bool := false
  -- Collection metadata
  sources_queried : List String := []
  sources_responded : List String := []
  collection_errors : List String := []
  collection_time_ms : Rat := 0
deriving DecidableEq

/-! ## engine_v3: category scorers

Each scorer builds the `breakdown` dict (distinct literal keys, so its
value-sum equals the list sum below), sums it, and clamps the sum to
`[0, cap]`.  All point values are integers, so scores live in `Int`. -/

/-- Category caps, as in the module constants. -/
def EA_CAP : Int := 300

def SI_CAP : Int := 300

def RS_CAP : Int := 250

def OM_CAP : Int := 150

/-- A scoring breakdown: signal name to contributed points. -/
def Breakdown : Type := List (String × Int)

instance : DecidableEq Breakdown := by
  unfold Breakdown
  infer_instance

/-- Sum of the contributions in a breakdown (Python
`sum(breakdown.values())`). -/
def bdSum (bd : Breakdown) : Int := (bd.map (fun e => e.2)).sum

/-- Clamp to `[0, cap]` (Python `min(max(raw, 0), cap)`). -/
def clampCap (raw cap : Int) : Int := min (max raw 0) cap

/-- Breakdown of `score_existence_and_age`. -/
def eaBreakdown (s : RawSignals) : Breakdown :=
  (if 3650 < s.domain_age_days then [("domain_age", 80)]
   else if 1825 < s.domain_age_days then [("domain_age", 60)]
   else if 730 < s.domain_age_days then [("domain_age", 40)]
   else if 365 < s.domain_age_days then [("domain_age", 25)]
   else if 90 < s.domain_age_days then [("domain_age", 10)]
   else if 0 < s.domain_age_days ∧ s.domain_age_days < 30 then
     [("domain_age_penalty", -50)]
   else []) ++
  (if s.ssl_valid then [("ssl_exists", 15)] else []) ++
  (if 1825 < s.first_cert_days_ago then [("first_cert_age", 30)]
   else if 730 < s.first_cert_days_ago then [("first_cert_age", 20)]
   else if 365 < s.first_cert_days_ago then [("first_cert_age", 10)]
   else []) ++
  (if s.ssl_cert_type = "EV" then [("cert_type", 25)]
   else if s.ssl_cert_type = "OV" then [("cert_type", 10)]
   else []) ++
  (if s.has_wikipedia then [("wikipedia", 50)] else []) ++
  (if s.has_wikidata then [("wikidata", 30)] else []) ++
  (if s.has_crunchbase then [("crunchbase", 20)] else []) ++
  (if s.whois_org ≠ "" ∧ s.ssl_org ≠ "" ∧
      strTake (strLower s.whois_org) 8 = strTake (strLower s.ssl_org) 8 then
     [("org_consistency", 20)]
   else []) ++
  (if 3 ≤ s.domain_expiry_years_ahead then [("domain_commitment", 15)]
   else if 1 ≤ s.domain_expiry_years_ahead then [("domain_commitment", 5)]
   else [])

/-- Translation of `score_existence_and_age`: clamped category score plus breakdown. -/
def score_existence_and_age (s : RawSignals) : Int × Breakdown :=
  (clampCap (bdSum (eaBreakdown s)) EA_CAP, eaBreakdown s)

/-- Breakdown of `score_security_and_integrity`. -/
def siBreakdown (s : RawSignals) : Breakdown :=
  (if s.vt_queried then
     (if s.vt_malicious_count + s.vt_suspicious_count = 0 then
        [("vt_clean", 100)]
      else if s.vt_malicious_count + s.vt_suspicious_count ≤ 2 then
        [("vt_mostly_clean", 40)]
      else if s.vt_malicious_count + s.vt_suspicious_count ≤ 5 then
        [("vt_suspicious_penalty", -50)]
      else [("vt_dangerous_penalty", -200)])
   else []) ++
  (if s.gsb_queried then
     (if !s.gsb_flagged then [("gsb_clean", 30)]
      else [("gsb_flagged_penalty", -200)])
   else []) ++
  (if s.dns_has_spf then [("spf", 25)] else []) ++
  (if s.dns_has_dmarc then [("dmarc", 30)] else []) ++
  (if s.dns_has_dkim then [("dkim", 15)] else []) ++
  (if s.dns_has_dnssec then [("dnssec", 20)] else []) ++
  (if s.http_has_hsts then [("hsts", 20)] else []) ++
  (if s.http_has_csp then [("csp", 20)] else []) ++
  (if s.http_has_xframe then [("xframe", 10)] else []) ++
  (if s.http_has_xcontent_type then [("xcontent", 10)] else []) ++
  (if s.http_has_referrer_policy then [("referrer_policy", 10)] else []) ++
  (if s.http_has_permissions_policy then [("permissions_policy", 10)] else [])

/-- Translation of `score_security_and_integrity`. -/
def score_security_and_integrity (s : RawSignals) : Int × Breakdown :=
  (clampCap (bdSum (siBreakdown s)) SI_CAP, siBreakdown s)

/-- Breakdown of `score_reputation_and_scale`. -/
def rsBreakdown (s : RawSignals) : Breakdown :=
  (if 0 < s.tranco_rank then
     (if s.tranco_rank ≤ 100 then [("tranco", 100)]
      else if s.tranco_rank ≤ 1000 then [("tranco", 80)]
      else if s.tranco_rank ≤ 10000 then [("tranco", 60)]
      else if s.tranco_rank ≤ 100000 then [("tranco", 40)]
      else if s.tranco_rank ≤ 500000 then [("tranco", 20)]
      else [("tranco", 10)])
   else []) ++
  (if 0 < s.vt_community_score then
     [("vt_community", min (s.vt_community_score * 3) 30)]
   else []) ++
  (if s.social_twitter then [("twitter", 10)] else []) ++
  (if s.social_linkedin then [("linkedin", 15)] else []) ++
  (if s.social_github then [("github", 15)] else []) ++
  (if 4 ≤ s.social_count then [("social_breadth", 20)] else [])

/-- Translation of `score_reputation_and_scale`. -/
def score_reputation_and_scale (s : RawSignals) : Int × Breakdown :=
  (clampCap (bdSum (rsBreakdown s)) RS_CAP, rsBreakdown s)

/-- Breakdown of `score_operational_maturity`. -/
def omBreakdown (s : RawSignals) : Breakdown :=
  (if s.has_structured_data then [("structured_data", 15)] else []) ++
  (if s.has_org_schema then [("org_schema", 15)] else []) ++
  (if s.has_status_page then [("status_page", 25)] else []) ++
  (if s.has_api_docs then [("api_docs", 20)] else []) ++
  (if s.has_changelog then [("changelog", 15)] else []) ++
  (if s.has_security_txt then [("security_txt", 15)] else []) ++
  (if 5 < s.total_certs_issued then [("cert_renewals", 15)] else []) ++
  (if s.dns_has_mx then [("mx_records", 15)] else []) ++
  (if s.has_robots_txt then [("robots_txt", 15)] else [])

/-- Translation of `score_operational_maturity`. -/
def score_operational_maturity (s : RawSignals) : Int × Breakdown :=
  (clampCap (bdSum (omBreakdown s)) OM_CAP, omBreakdown s)

/-! ## engine_v3: hard caps and the main entry point -/

/-- Translation of `apply_hard_caps`: certain signals override the total score, checked
in the fixed textual order of the function body. -/
def apply_hard_caps (score : Int) (s : RawSignals) : Int × Option String :=
  if s.on_sanctions_list then (0, some "SANCTIONED")
  else if s.on_fraud_blocklist then (min score 50, some "FRAUD_BLOCKLISTED")
  else if s.gsb_queried && s.gsb_flagged then
    (min score 150, some "GOOGLE_SAFE_BROWSING_FLAGGED")
  else if s.vt_queried &&
      decide (6 ≤ s.vt_malicious_count + s.vt_suspicious_count) then
    (min score 200, some "VIRUSTOTAL_HIGH_FLAGS")
  else if decide (0 < s.domain_age_days) && decide (s.domain_age_days < 30) &&
      decide (s.tranco_rank = 0) then
    (min score 100, some "NEW_DOMAIN_NO_REPUTATION")
  else (score, none)

/-- Translation of `TrustGrade` enum. -/
inductive TrustGrade where
  | AAA | AA | A | BBB | BB | B | CCC | D
deriving DecidableEq

/-- Translation of `Recommendation` enum. -/
inductive Recommendation where
  | PROCEED
  | PROCEED_WITH_CAUTION
  | MANUAL_REVIEW
  | ENHANCED_DUE_DILIGENCE
  | REJECT
deriving DecidableEq

/-- Grade thresholds inside `compute_score`. -/
def gradeOf (final_score : Int) : TrustGrade :=
  if 850 ≤ final_score then .AAA
  else if 750 ≤ final_score then .AA
  else if 650 ≤ final_score then .A
  else if 550 ≤ final_score then .BBB
  else if 450 ≤ final_score then .BB
  else if 350 ≤ final_score then .B
  else if 200 ≤ final_score then .CCC
  else .D

/-- Recommendation thresholds inside `compute_score`. -/
def recOf (final_score : Int) : Recommendation :=
  if 650 ≤ final_score then .PROCEED
  else if 450 ≤ final_score then .PROCEED_WITH_CAUTION
  else if 350 ≤ final_score then .MANUAL_REVIEW
  else if 200 ≤ final_score then .ENHANCED_DUE_DILIGENCE
  else .REJECT

/-- Confidence label thresholds inside `compute_score`. -/
def confLabelOf (confidence : Rat) : String :=
  if 8/10 ≤ confidence then "high"
  else if 5/10 ≤ confidence then "moderate"
  else "low"

/-- The output dataclass `TrustScoreResult` (the `to_preview` / `to_full`
serializers are not needed by the engine-level properties). -/
structure TrustScoreResult where
  target : String
  score : Int
  grade : TrustGrade
  recommendation : Recommendation
  existence_age : Int
  security_integrity : Int
  reputation_scale : Int
  operational_maturity : Int
  breakdown : List (String × Breakdown)
  confidence : Rat
  confidence_label : String
  sources_used : Nat
  sources_total : Nat
  cap_applied : Option String
  engine_version : String := "3.0.0"
deriving DecidableEq

/-- Translation of `compute_score`, the scoring entry point.  Note that the confidence
denominator is the hard-coded constant `total_sources = 9`, not the
length of `sources_queried`. -/
def compute_score (signals : RawSignals) : TrustScoreResult :=
  let ea := score_existence_and_age signals
  let si := score_security_and_integrity signals
  let rs := score_reputation_and_scale signals
  let om := score_operational_maturity signals
  -- all sub-scores are integral, so `int(ea + si + rs + om)` is the sum
  let raw_score : Int := ea.1 + si.1 + rs.1 + om.1
  let capped := apply_hard_caps raw_score signals
  let total_sources : Nat := 9
  let responded : Nat := signals.sources_responded.length
  let confidence : Rat := (responded : Rat) / (total_sources : Rat)
  { target := signals.target
    score := capped.1
    grade := gradeOf capped.1
    recommendation := recOf capped.1
    existence_age := ea.1
    security_integrity := si.1
    reputation_scale := rs.1
    operational_maturity := om.1
    breakdown := [("existence_age", ea.2), ("security_integrity", si.2),
                  ("reputation_scale", rs.2), ("operational_maturity", om.2)]
    confidence := confidence
    confidence_label := confLabelOf confidence
    sources_used := responded
    sources_total := total_sources
    cap_applied := capped.2 }

/-! ## sensors: orchestration metadata (`app/compute/sensors.py`)

`observe_entity` builds the sensor task dict (seven domain-only sensors
plus the two that always run), sets `sources_queried` from it, runs every
task through `_timed_collect`, and appends to `sources_responded` for
every gathered result that is a tuple.  `_timed_collect` catches every
exception a collector raises (including timeouts) and still returns a
`(name, signals, elapsed)` tuple — with an empty signal mapping on
failure — so no entry of `asyncio.gather(...)` is ever an exception
object. -/

/-- The sensor identifiers of the `Sensor` enum used by
`observe_entity`, in task-construction order. -/
def domainSensors : List String :=
  ["tranco", "crtsh", "virustotal", "dns", "http_headers", "whois",
   "web_presence"]

/-- The two sensors that are launched for every target, domain or not. -/
def universalSensors : List String := ["knowledge_graph", "social"]

/-- Sensor signal payloads (flat name-to-primitive mapping); the payload
contents are irrelevant to coverage accounting. -/
def SensorSignals : Type := List (String × CVal)

instance : DecidableEq SensorSignals := by
  unfold SensorSignals
  infer_instance

/-- What a collector coroutine did: produced signals, or raised (timeout
or any other exception). -/
inductive CollectorOutcome where
  | ok (signals : SensorSignals)
  | fail (error : String)
deriving DecidableEq

/-- Translation of `_timed_collect`: runs one sensor; on any exception it logs and
returns the sensor name with an EMPTY signal mapping — still a tuple. -/
def timedCollect (name : String) (o : CollectorOutcome) : String × SensorSignals :=
  match o with
  | .ok signals => (name, signals)
  | .fail _ => (name, [])

/-- The sensors launched for a target, depending on whether target
parsing produced a domain (`sources_queried`). -/
def sourcesQueriedFor (hasDomain : Bool) : List String :=
  (if hasDomain then domainSensors else []) ++ universalSensors

/-- The result-processing loop of `observe_entity`: every gather entry is
the tuple returned by `_timed_collect`, so every launched sensor is
appended to `sources_responded`. -/
def sourcesRespondedFor (hasDomain : Bool)
    (outcomes : String → CollectorOutcome) : List String :=
  ((sourcesQueriedFor hasDomain).map
    (fun n => timedCollect n (outcomes n))).map (fun r => r.1)

/-! ## pipeline: circuit breaker (`app/compute/pipeline.py`) -/

/-- The three states of `CircuitBreaker.state`. -/
inductive BreakerState where
  | closed
  | opn
  | halfOpen
deriving DecidableEq

/-- Translation of `CircuitBreaker` instance fields (`name` omitted: it is only used
for logging).  Times are integers (seconds). -/
structure CircuitBreaker where
  threshold : Nat
  recovery_timeout : Int
  failures : Nat := 0
  last_failure_time : Int := 0
  state : BreakerState := .closed
deriving DecidableEq

/-- Translation of `can_execute`, with the current clock passed explicitly.  Returns the
decision and the (possibly updated) breaker. -/
def canExecute (t : Int) (b : CircuitBreaker) : Bool × CircuitBreaker :=
  match b.state with
  | .closed => (true, b)
  | .opn =>
      if b.recovery_timeout < t - b.last_failure_time then
        (true, { b with state := .halfOpen })
      else (false, b)
  | .halfOpen => (true, b)

/-- Translation of `record_success`. -/
def recordSuccess (b : CircuitBreaker) : CircuitBreaker :=
  { b with failures := 0, state := .closed }

/-- Translation of `record_failure`, with the current clock passed explicitly. -/
def recordFailure (t : Int) (b : CircuitBreaker) : CircuitBreaker :=
  { b with
    failures := b.failures + 1
    last_failure_time := t
    state := if b.threshold ≤ b.failures + 1 then .opn else b.state }

/-- Breaker states reachable from a freshly constructed breaker through
the three public operations. -/
inductive BreakerReach : CircuitBreaker → Prop
  | init (th : Nat) (rt : Int) :
      BreakerReach { threshold := th, recovery_timeout := rt }
  | exec (t : Int) (b : CircuitBreaker) :
      BreakerReach b → BreakerReach (canExecute t b).2
  | succ (b : CircuitBreaker) : BreakerReach b → BreakerReach (recordSuccess b)
  | fail (t : Int) (b : CircuitBreaker) :
      BreakerReach b → BreakerReach (recordFailure t b)

/-- In every reachable open or half-open breaker the failure count has
already met the threshold (the transition into `open` requires it and
nothing on the way to `half-open` resets it). -/
theorem breakerReach_failures {b : CircuitBreaker} (h : BreakerReach b) :
    b.state = .opn ∨ b.state = .halfOpen → b.threshold ≤ b.failures := by
  induction h with
  | init th rt =>
      intro hs
      rcases hs with h1 | h1 <;>
        exact absurd h1 (by intro hc; exact BreakerState.noConfusion hc)
  | exec t b hb ih =>
      intro hs
      rcases hstate : b.state with _ | _ | _
      · have he : (canExecute t b).2 = b := by simp [canExecute, hstate]
        rw [he] at hs ⊢
        simp [hstate] at hs
      · by_cases hrt : b.recovery_timeout < t - b.last_failure_time
        · have he : (canExecute t b).2 = { b with state := .halfOpen } := by
            simp [canExecute, hstate, hrt]
          rw [he]
          exact ih (Or.inl hstate)
        · have he : (canExecute t b).2 = b := by simp [canExecute, hstate, hrt]
          rw [he] at hs ⊢
          exact ih hs
      · have he : (canExecute t b).2 = b := by simp [canExecute, hstate]
        rw [he] at hs ⊢
        exact ih hs
  | succ b hb ih =>
      intro hs
      rcases hs with h1 | h1 <;>
        exact absurd h1 (by intro hc; exact BreakerState.noConfusion hc)
  | fail t b hb ih =>
      intro hs
      have hgoal : (recordFailure t b).failures = b.failures + 1 := rfl
      have hst : (recordFailure t b).state =
          if b.threshold ≤ b.failures + 1 then .opn else b.state := rfl
      rw [hgoal]
      by_cases hth : b.threshold ≤ b.failures + 1
      · exact hth
      · rw [hst, if_neg hth] at hs
        exact Nat.le_succ_of_le (ih hs)

/-! ## trustchain: blocks and hashing (`app/chain/trustchain.py`)

SHA-256 over the canonical JSON of the six hashed fields is modelled as
the injective constructor `BlockHash.digest` carrying exactly those six
fields; `GENESIS_HASH` is the constructor `BlockHash.genesis`.  This is
the usual collision-freeness idealisation: two blocks hash equal iff
their hashed content is equal. -/

/-- Signal payload of one observation: a flat JSON mapping. -/
def Signals : Type := List (String × CVal)

instance : DecidableEq Signals := by
  unfold Signals
  infer_instance

/-- Lookup in a signal mapping (`d.get(key)`). -/
def sigGet (l : Signals) (k : String) : Option CVal :=
  (l.find? (fun e => e.1 = k)).map (fun e => e.2)

/-- A block hash: the genesis constant, or the digest of the six fields
serialized by `Block.compute_hash` (entity id, sensor, index, timestamp,
signals, previous hash). -/
inductive BlockHash where
  | genesis
  | digest (entity_id : String) (sensor : String) (block_index : Nat)
      (observed_at : String) (signals : Signals) (prev : BlockHash)
deriving DecidableEq

/-- One entry of a `compute_delta` result: the changed key, old and new
values, and the optional severity/alert annotations. -/
structure DeltaEntry where
  key : String
  was : Option CVal
  now : Option CVal
  severity : Option String := none
  alert : Option String := none
deriving DecidableEq

/-- Translation of `compute_delta`: the keys whose values differ between two
observations of the same sensor, with severity flags for the three
security-relevant regressions.  (The union of key sets is taken in
first-occurrence order; Python iterates it in unspecified set order,
which no property depends on.) -/
def compute_delta (old_signals new_signals : Signals) : List DeltaEntry :=
  ((old_signals.map (fun e => e.1)) ++ (new_signals.map (fun e => e.1))).dedup.filterMap
    (fun key =>
      let old_val := sigGet old_signals key
      let new_val := sigGet new_signals key
      if old_val = new_val then none
      else if (key = "dns_has_spf" ∨ key = "dns_has_dmarc" ∨ key = "ssl_valid") ∧
              old_val = some (.vb true) ∧ new_val = some (.vb false) then
        some { key := key, was := old_val, now := new_val,
               severity := some "critical",
               alert := some (key ++ " was present, now missing") }
      else if key = "vt_malicious_count" then
        match old_val, new_val with
        | some (.vi a), some (.vi b) =>
            if a < b then
              some { key := key, was := old_val, now := new_val,
                     severity := some "high",
                     alert := some ("VirusTotal flags increased from " ++
                       toString a ++ " to " ++ toString b) }
            else some { key := key, was := old_val, now := new_val }
        | _, _ => some { key := key, was := old_val, now := new_val }
      else if key = "tranco_rank" then
        match old_val, new_val with
        | some (.vi a), new_v =>
            if 0 < a ∧ (new_v = none ∨ new_v = some (.vi 0)) then
              some { key := key, was := old_val, now := new_val,
                     severity := some "warning",
                     alert := some "Dropped out of Tranco Top 1M" }
            else some { key := key, was := old_val, now := new_val }
        | _, _ => some { key := key, was := old_val, now := new_val }
      else some { key := key, was := old_val, now := new_val })

/-- The `Block` dataclass.  `block_index` is a natural number (the code
only ever produces `0` or `head + 1`). -/
structure Block where
  entity_id : String
  sensor : String
  block_index : Nat
  observed_at : String
  observed_at_unix : Rat
  signals : Signals
  prev_hash : BlockHash
  block_hash : BlockHash
  delta : List DeltaEntry
  collection_time_ms : Rat
  sensor_version : String := "3.0.0"
  node_id : String
deriving DecidableEq

/-- Translation of `Block.compute_hash`: the digest covers exactly entity id, sensor,
block index, ISO timestamp, signals and previous hash — and none of
`delta`, `collection_time_ms`, `sensor_version`, `node_id`,
`observed_at_unix`. -/
def Block.computeHash (b : Block) : BlockHash :=
  .digest b.entity_id b.sensor b.block_index b.observed_at b.signals b.prev_hash

/-- The hot-path store state for one entity: chain head (hash and index),
the LPUSH block list (newest first, trimmed to 1000), and the latest
signal payload per sensor for delta computation.  (The 7-day TTL on
individual block keys is not modelled; the verified claims are about
chains whose blocks have not expired.) -/
structure ChainState where
  head_hash : BlockHash := .genesis
  head_index : Nat := 0
  blocks : List Block := []
  latest : List (String × Signals) := []

/-- Store the latest signals for a sensor (Redis `SET`). -/
def latestSet (l : List (String × Signals)) (sensor : String) (s : Signals) :
    List (String × Signals) :=
  (sensor, s) :: l.filter (fun e => ¬ e.1 = sensor)

/-- Translation of `get_last_signals`. -/
def latestGet (l : List (String × Signals)) (sensor : String) : Option Signals :=
  (l.find? (fun e => e.1 = sensor)).map (fun e => e.2)

/-- Input of one `create_block` call: what the sensor observed, plus the
clock and node values `__post_init__` would fill in. -/
structure ObsInput where
  sensor : String
  signals : Signals
  observed_at : String
  observed_at_unix : Rat := 0
  collection_time_ms : Rat := 0
  node_id : String := "node-0"

/-- Translation of `append_block`: update the chain head, store the latest signals for
the sensor, LPUSH the block and trim the list to the last 1000. -/
def appendBlock (st : ChainState) (b : Block) : ChainState :=
  { head_hash := b.block_hash
    head_index := b.block_index
    blocks := (b :: st.blocks).take 1000
    latest := latestSet st.latest b.sensor b.signals }

/-- Translation of `create_block`: read the head, pick the next index (`0` when the
head is still the genesis constant), compute the delta against the
previous payload of the sensor, build the block (whose hash `__post_init__`
computes over the six hashed fields), and append it. -/
def create_block (entity_id : String) (st : ChainState) (inp : ObsInput) :
    ChainState × Block :=
  let prev_hash := st.head_hash
  let new_index := if prev_hash ≠ BlockHash.genesis then st.head_index + 1 else 0
  let old_signals := latestGet st.latest inp.sensor
  let delta : List DeltaEntry :=
    match old_signals with
    | some o => if o = [] then [] else compute_delta o inp.signals
    | none => []
  let b : Block :=
    { entity_id := entity_id
      sensor := inp.sensor
      block_index := new_index
      observed_at := inp.observed_at
      observed_at_unix := inp.observed_at_unix
      signals := inp.signals
      prev_hash := prev_hash
      block_hash := .digest entity_id inp.sensor new_index inp.observed_at
        inp.signals prev_hash
      delta := delta
      collection_time_ms := inp.collection_time_ms
      node_id := inp.node_id }
  (appendBlock st b, b)

/-- A sequence of single-writer `create_block` appends for one entity,
starting from an empty store. -/
def runCreates (entity_id : String) (inputs : List ObsInput) : ChainState :=
  inputs.foldl (fun st inp => (create_block entity_id st inp).1) {}

/-! ## trustchain: chain well-formedness -/

/-- Linkage between a block and its immediate predecessor: stored
predecessor hash equals the previous content hash, and the index is the
successor. -/
def linkOK (newer older : Block) : Prop :=
  newer.prev_hash = older.block_hash ∧ newer.block_index = older.block_index + 1

/-- A well-formed hot list (newest first): every stored hash is the
recomputation of its own block, and consecutive blocks are linked. -/
def chainOK (l : List Block) : Prop :=
  (∀ b ∈ l, b.block_hash = b.computeHash) ∧ List.Chain' linkOK l

/-- Full store invariant maintained by `create_block`: the hot list is
well-formed, the stored head mirrors its newest block (genesis when the
list is empty), and only a chain-initial block points at genesis. -/
def ChainInv (st : ChainState) : Prop :=
  chainOK st.blocks ∧
  (st.blocks = [] → st.head_hash = .genesis) ∧
  (∀ b, st.blocks.head? = some b →
    st.head_hash = b.block_hash ∧ st.head_index = b.block_index) ∧
  (∀ b ∈ st.blocks, b.block_index = 0 → b.prev_hash = .genesis)

theorem chainOK_take {l : List Block} (h : chainOK l) (n : Nat) :
    chainOK (l.take n) := by
  exact ⟨fun b hb => h.1 b (List.take_subset n l hb), h.2.take n⟩

theorem chainInv_append {st : ChainState} (h : ChainInv st) (nb : Block)
    (hh : nb.block_hash = nb.computeHash)
    (hp : nb.prev_hash = st.head_hash)
    (hi : nb.block_index =
      if st.head_hash ≠ BlockHash.genesis then st.head_index + 1 else 0) :
    ChainInv (appendBlock st nb) := by
  obtain ⟨⟨hhash, hchain⟩, hemp, hhead, hzero⟩ := h
  have htk : (appendBlock st nb).blocks = (nb :: st.blocks).take 1000 := rfl
  refine ⟨⟨?_, ?_⟩, ?_, ?_, ?_⟩
  · intro b hb
    rw [htk] at hb
    rcases List.mem_cons.mp (List.mem_of_mem_take hb) with hb2 | hb2
    · exact hb2 ▸ hh
    · exact hhash b hb2
  · rw [htk]
    refine List.Chain'.take ?_ 1000
    rw [List.chain'_cons']
    refine ⟨?_, hchain⟩
    intro y hy
    have hym : y ∈ st.blocks := List.mem_of_mem_head? hy
    have hhy := hhead y hy
    have hng : st.head_hash ≠ BlockHash.genesis := by
      rw [hhy.1, hhash y hym]
      simp [Block.computeHash]
    exact ⟨by rw [hp, hhy.1], by rw [hi, if_pos hng, hhy.2]⟩
  · intro habs
    rw [htk] at habs
    exact absurd habs (by simp)
  · intro b hbhead
    have hb : ((nb :: st.blocks).take 1000).head? = some nb := rfl
    rw [htk, hb] at hbhead
    cases hbhead
    exact ⟨rfl, rfl⟩
  · intro b hb h0
    rw [htk] at hb
    rcases List.mem_cons.mp (List.mem_of_mem_take hb) with hb2 | hb2
    · subst hb2
      by_cases hng : st.head_hash ≠ BlockHash.genesis
      · rw [hi, if_pos hng] at h0
        exact absurd h0 (by simp)
      · rw [hp]
        simpa using hng
    · exact hzero b hb2 h0

theorem chainInv_create (entity_id : String) {st : ChainState} (h : ChainInv st)
    (inp : ObsInput) : ChainInv (create_block entity_id st inp).1 :=
  chainInv_append h (create_block entity_id st inp).2 rfl rfl rfl

theorem chainInv_empty : ChainInv {} := by
  refine ⟨⟨?_, ?_⟩, ?_, ?_, ?_⟩ <;> simp [chainOK]

theorem chainInv_runCreates (entity_id : String) (inputs : List ObsInput) :
    ChainInv (runCreates entity_id inputs) := by
  have hgen : ∀ (l : List ObsInput) (st : ChainState), ChainInv st →
      ChainInv (l.foldl (fun st inp => (create_block entity_id st inp).1) st) := by
    intro l
    induction l with
    | nil => exact fun st hst => hst
    | cons a as ih =>
        intro st hst
        exact ih _ (chainInv_create entity_id hst a)
  exact hgen inputs {} chainInv_empty

/-! ## trustchain: `verify_chain` -/

/-- One break record of `verify_chain`: a stored hash that does not
match its recomputation, or a stored predecessor hash that does not
match the previous content hash. -/
inductive VerifyBreak where
  | hashMismatch (block_index : Nat) (expected_hash stored_hash : BlockHash)
  | chainBreak (block_index : Nat) (expected_prev actual_prev : BlockHash)
deriving DecidableEq

/-- Translation of `get_entity_history`: the newest `limit` entries of the hot list. -/
def getEntityHistory (st : ChainState) (limit : Nat) : List Block :=
  st.blocks.take limit

/-- Stable insertion into a list sorted by ascending `block_index`. -/
def insertByIdx (b : Block) : List Block → List Block
  | [] => [b]
  | c :: cs =>
      if b.block_index ≤ c.block_index then b :: c :: cs
      else c :: insertByIdx b cs

/-- Translation of `blocks.sort(key=lambda b: b["block_index"])`: a stable sort by
ascending block index (insertion sort; the verified chains have pairwise
distinct indexes, so any stable sort gives the same list). -/
def sortByIdx : List Block → List Block
  | [] => []
  | b :: rest => insertByIdx b (sortByIdx rest)

/-- The breaks the verification loop records for one block, given the
previous block of the sorted iteration (if any): a `hash_mismatch` when
the recomputed hash differs from the stored one, and a `chain_break`
when the stored `prev_hash` differs from the previous stored hash. -/
def blockBreaks (prev : Option Block) (b : Block) : List VerifyBreak :=
  (if b.computeHash ≠ b.block_hash then
     [.hashMismatch b.block_index b.computeHash b.block_hash]
   else []) ++
  (match prev with
   | none => []
   | some p =>
       if p.block_hash ≠ b.prev_hash then
         [.chainBreak b.block_index p.block_hash b.prev_hash]
       else [])

/-- The verification loop over the sorted block list. -/
def chainBreaksAcc : Option Block → List Block → List VerifyBreak
  | _, [] => []
  | prev, b :: rest => blockBreaks prev b ++ chainBreaksAcc (some b) rest

/-- The result dictionary of `verify_chain`. -/
structure VerifyResult where
  verified : Bool
  blocks_checked : Nat
  breaks : List VerifyBreak
  chain_head : Option BlockHash
deriving DecidableEq

/-- Translation of `verify_chain`: fetch up to `limit` recent blocks, sort by index,
recompute every hash, check every consecutive linkage, and return the
full list of breaks found. -/
def verify_chain (st : ChainState) (limit : Nat) : VerifyResult :=
  let blocks := getEntityHistory st limit
  if blocks = [] then
    { verified := true, blocks_checked := 0, breaks := [], chain_head := none }
  else
    let sorted := sortByIdx blocks
    let breaks := chainBreaksAcc none sorted
    { verified := breaks = []
      blocks_checked := sorted.length
      breaks := breaks
      chain_head := sorted.getLast?.map (fun b => b.block_hash) }

/-! ### Sorting a well-formed hot list reverses it -/

theorem chain'_link_lt {b : Block} {rest : List Block}
    (h : List.Chain' linkOK (b :: rest)) :
    ∀ c ∈ rest, c.block_index < b.block_index := by
  induction rest generalizing b with
  | nil => intro c hc; cases hc
  | cons b2 r2 ih =>
      intro c hc
      have hlink : linkOK b b2 := (List.chain'_cons'.mp h).1 b2 rfl
      have htail : List.Chain' linkOK (b2 :: r2) := (List.chain'_cons'.mp h).2
      rcases List.mem_cons.mp hc with hc2 | hc2
      · subst hc2
        rw [hlink.2]
        omega
      · have hlt := ih htail c hc2
        rw [hlink.2]
        omega

theorem insertByIdx_tail {b : Block} {l : List Block}
    (h : ∀ c ∈ l, c.block_index < b.block_index) :
    insertByIdx b l = l ++ [b] := by
  induction l with
  | nil => rfl
  | cons c cs ih =>
      have hc : c.block_index < b.block_index := h c (List.mem_cons_self c cs)
      rw [insertByIdx, if_neg (by omega), ih (fun d hd => h d (List.mem_cons_of_mem c hd))]
      rfl

theorem sortByIdx_reverse {l : List Block} (h : List.Chain' linkOK l) :
    sortByIdx l = l.reverse := by
  induction l with
  | nil => rfl
  | cons b rest ih =>
      have htail : List.Chain' linkOK rest := h.tail
      rw [sortByIdx, ih htail, insertByIdx_tail, List.reverse_cons]
      intro c hc
      exact chain'_link_lt h c (List.mem_reverse.mp hc)

/-! ### A well-formed list verifies with zero breaks -/

theorem chainBreaksAcc_append (p : Option Block) (xs : List Block) (b : Block) :
    chainBreaksAcc p (xs ++ [b]) =
      chainBreaksAcc p xs ++ blockBreaks (xs.getLast?.or p) b := by
  induction xs generalizing p with
  | nil => simp [chainBreaksAcc, Option.or]
  | cons x xs2 ih =>
      have key : xs2.getLast?.or (some x) = (x :: xs2).getLast?.or p := by
        cases xs2 with
        | nil => rfl
        | cons y ys =>
            obtain ⟨z, hz⟩ := Option.isSome_iff_exists.mp
              (List.getLast?_isSome.mpr (by simp) :
                ((y :: ys).getLast?).isSome)
            rw [List.getLast?_cons_cons, hz]
            rfl
      rw [List.cons_append, chainBreaksAcc, ih (some x), chainBreaksAcc,
        List.append_assoc, key]

theorem chainBreaksAcc_reverse_nil {l : List Block} (h : chainOK l) :
    chainBreaksAcc none l.reverse = [] := by
  induction l with
  | nil => rfl
  | cons b rest ih =>
      have hOK : chainOK rest :=
        ⟨fun c hc => h.1 c (List.mem_cons_of_mem b hc), h.2.tail⟩
      rw [List.reverse_cons, chainBreaksAcc_append, ih hOK,
        List.getLast?_reverse]
      have hb : ¬ b.computeHash ≠ b.block_hash := by
        simp [(h.1 b (List.mem_cons_self b rest)).symm]
      cases hrest : rest with
      | nil => simp [blockBreaks, hb, Option.or]
      | cons b2 r2 =>
          have hlink : linkOK b b2 := by
            have h2 := h.2
            rw [hrest] at h2
            exact (List.chain'_cons'.mp h2).1 b2 rfl
          simp [blockBreaks, hb, Option.or, hlink.1]

/-- Any chain whose hot list is well-formed verifies with zero breaks,
for every history limit. -/
theorem verify_chain_zero {st : ChainState} (h : chainOK st.blocks)
    (limit : Nat) : (verify_chain st limit).breaks = [] := by
  have hOK : chainOK (st.blocks.take limit) := chainOK_take h limit
  unfold verify_chain getEntityHistory
  by_cases he : st.blocks.take limit = []
  · simp [he]
  · simp only [if_neg he]
    rw [sortByIdx_reverse hOK.2, chainBreaksAcc_reverse_nil hOK]

theorem mem_insertByIdx {b c : Block} {l : List Block} :
    c ∈ insertByIdx b l ↔ c = b ∨ c ∈ l := by
  induction l with
  | nil => simp [insertByIdx]
  | cons d ds ih =>
      rw [insertByIdx]
      split_ifs with hle
      · simp [List.mem_cons]
      · rw [List.mem_cons, ih, List.mem_cons]
        tauto

theorem mem_sortByIdx {b : Block} {l : List Block} :
    b ∈ sortByIdx l ↔ b ∈ l := by
  induction l with
  | nil => simp [sortByIdx]
  | cons d ds ih =>
      rw [sortByIdx, mem_insertByIdx, ih]
      exact List.mem_cons.symm

theorem hashMismatch_mem {l : List Block} {b : Block} (p : Option Block)
    (hb : b ∈ l) (hne : b.computeHash ≠ b.block_hash) :
    VerifyBreak.hashMismatch b.block_index b.computeHash b.block_hash ∈
      chainBreaksAcc p l := by
  induction l generalizing p with
  | nil => cases hb
  | cons x xs ih =>
      rw [chainBreaksAcc]
      rcases List.mem_cons.mp hb with hb2 | hb2
      · subst hb2
        refine List.mem_append_left _ ?_
        simp only [blockBreaks, if_pos hne]
        exact List.mem_append_left _ (List.mem_singleton.mpr rfl)
      · exact List.mem_append_right _ (ih (some x) hb2)

/-! ## trustchain: mutation of stored blocks (tamper models) -/

/-- Overwrite the stored signal payload of the block at position `pos`
of the hot list, without recomputing its stored hash. -/
def mutateSignals (st : ChainState) (pos : Nat) (newSig : Signals) :
    ChainState :=
  match st.blocks.get? pos with
  | some b => { st with blocks := st.blocks.set pos { b with signals := newSig } }
  | none => st

/-- Overwrite the five fields of a stored block that `compute_hash` does
NOT cover (`delta`, `collection_time_ms`, `sensor_version`, `node_id`,
`observed_at_unix`), without recomputing its stored hash. -/
def mutateMeta (st : ChainState) (pos : Nat) (d : List DeltaEntry)
    (ct : Rat) (sv ni : String) (ux : Rat) : ChainState :=
  match st.blocks.get? pos with
  | some b =>
      { st with
        blocks := st.blocks.set pos
          { b with delta := d, collection_time_ms := ct, sensor_version := sv,
                   node_id := ni, observed_at_unix := ux } }
  | none => st

theorem chainOK_set_compat {l : List Block} {i : Nat} {b bm : Block}
    (hget : l.get? i = some b)
    (hbh : bm.block_hash = b.block_hash)
    (hch : bm.computeHash = b.computeHash)
    (hph : bm.prev_hash = b.prev_hash)
    (hix : bm.block_index = b.block_index)
    (h : chainOK l) : chainOK (l.set i bm) := by
  constructor
  · intro c hc
    rcases List.mem_or_eq_of_mem_set hc with hc2 | hc2
    · exact h.1 c hc2
    · subst hc2
      rw [hbh, hch]
      exact h.1 b (List.get?_mem hget)
  · have hi : i < l.length := by
      by_contra hcon
      rw [List.get?_eq_none.mpr (by omega)] at hget
      cases hget
    have hbi : l[i] = b := by
      rw [List.get?_eq_get hi] at hget
      cases hget
      simp [List.get_eq_getElem]
    have h2 := h.2
    rw [List.chain'_iff_get] at h2 ⊢
    intro j hj
    have hj2 : j < l.length - 1 := by
      have hls := List.length_set l i bm
      omega
    have hR := h2 j hj2
    simp only [List.get_eq_getElem] at hR
    simp only [List.get_eq_getElem, List.getElem_set]
    split_ifs with hc1 hc2 hc3
    · omega
    · subst hc1
      exact ⟨by rw [hph, ← hbi]; exact hR.1, by rw [hix, ← hbi]; exact hR.2⟩
    · subst hc3
      exact ⟨by rw [hbh, ← hbi]; exact hR.1, by rw [hix, ← hbi]; exact hR.2⟩
    · exact hR

theorem verify_chain_detects {st : ChainState} (hInv : ChainInv st)
    {pos limit : Nat} (h1 : pos < st.blocks.length) (h2 : pos < limit)
    {newSig : Signals}
    (hne : newSig ≠ (st.blocks.get ⟨pos, h1⟩).signals) :
    VerifyBreak.hashMismatch (st.blocks.get ⟨pos, h1⟩).block_index
      (Block.computeHash { st.blocks.get ⟨pos, h1⟩ with signals := newSig })
      ((st.blocks.get ⟨pos, h1⟩).block_hash) ∈
      (verify_chain (mutateSignals st pos newSig) limit).breaks := by
  have hget : st.blocks.get? pos = some (st.blocks.get ⟨pos, h1⟩) :=
    List.get?_eq_get h1
  have hbhash : (st.blocks.get ⟨pos, h1⟩).block_hash =
      (st.blocks.get ⟨pos, h1⟩).computeHash :=
    hInv.1.1 _ (List.get_mem st.blocks pos h1)
  have hNe : Block.computeHash
        { st.blocks.get ⟨pos, h1⟩ with signals := newSig } ≠
      ({ st.blocks.get ⟨pos, h1⟩ with signals := newSig } : Block).block_hash := by
    intro heq
    have heq2 : BlockHash.digest (st.blocks.get ⟨pos, h1⟩).entity_id
        (st.blocks.get ⟨pos, h1⟩).sensor (st.blocks.get ⟨pos, h1⟩).block_index
        (st.blocks.get ⟨pos, h1⟩).observed_at newSig
        (st.blocks.get ⟨pos, h1⟩).prev_hash =
        BlockHash.digest (st.blocks.get ⟨pos, h1⟩).entity_id
        (st.blocks.get ⟨pos, h1⟩).sensor (st.blocks.get ⟨pos, h1⟩).block_index
        (st.blocks.get ⟨pos, h1⟩).observed_at (st.blocks.get ⟨pos, h1⟩).signals
        (st.blocks.get ⟨pos, h1⟩).prev_hash := by
      calc BlockHash.digest _ _ _ _ newSig _
          = Block.computeHash { st.blocks.get ⟨pos, h1⟩ with signals := newSig } :=
            rfl
        _ = ({ st.blocks.get ⟨pos, h1⟩ with signals := newSig } : Block).block_hash :=
            heq
        _ = (st.blocks.get ⟨pos, h1⟩).block_hash := rfl
        _ = (st.blocks.get ⟨pos, h1⟩).computeHash := hbhash
        _ = BlockHash.digest _ _ _ _ (st.blocks.get ⟨pos, h1⟩).signals _ := rfl
    injection heq2 with e1 e2 e3 e4 e5 e6
    exact hne e5
  have hblocks : (mutateSignals st pos newSig).blocks =
      st.blocks.set pos { st.blocks.get ⟨pos, h1⟩ with signals := newSig } := by
    unfold mutateSignals
    rw [hget]
  have hget2 : ((st.blocks.set pos
      { st.blocks.get ⟨pos, h1⟩ with signals := newSig }).take limit).get? pos =
      some { st.blocks.get ⟨pos, h1⟩ with signals := newSig } := by
    rw [List.get?_take h2]
    exact List.get?_set_eq_of_lt _ h1
  have hmem : { st.blocks.get ⟨pos, h1⟩ with signals := newSig } ∈
      (st.blocks.set pos
        { st.blocks.get ⟨pos, h1⟩ with signals := newSig }).take limit :=
    List.get?_mem hget2
  have hne2 : (st.blocks.set pos
      { st.blocks.get ⟨pos, h1⟩ with signals := newSig }).take limit ≠ [] :=
    List.ne_nil_of_mem hmem
  unfold verify_chain getEntityHistory
  rw [hblocks]
  simp only [if_neg hne2]
  exact hashMismatch_mem none (mem_sortByIdx.mpr hmem) hNe

theorem verify_chain_meta_zero {st : ChainState} (hInv : ChainInv st)
    (pos : Nat) (d : List DeltaEntry) (ct : Rat) (sv ni : String) (ux : Rat)
    (limit : Nat) :
    (verify_chain (mutateMeta st pos d ct sv ni ux) limit).breaks = [] := by
  cases hget : st.blocks.get? pos with
  | none =>
      have hsame : mutateMeta st pos d ct sv ni ux = st := by
        unfold mutateMeta
        rw [hget]
      rw [hsame]
      exact verify_chain_zero hInv.1 limit
  | some b =>
      have hblocks : (mutateMeta st pos d ct sv ni ux).blocks =
          st.blocks.set pos
            { b with delta := d, collection_time_ms := ct, sensor_version := sv,
                     node_id := ni, observed_at_unix := ux } := by
        unfold mutateMeta
        rw [hget]
      have hOK : chainOK (mutateMeta st pos d ct sv ni ux).blocks := by
        rw [hblocks]
        exact chainOK_set_compat hget rfl rfl rfl rfl hInv.1
      exact verify_chain_zero hOK limit

/-! ## cache: the score cache (`app/compute/cache.py`)

The Redis store is modelled as an explicit entry list with absolute
expiry times; `SETEX key ttl v` stores the value until `t + ttl`, and a
`GET` at time `u` sees the key iff `u < t + ttl`.  The truncated SHA-256
hex digest of the normalized target is modelled as the normalized string
itself (an injective digest).  The `meta` hash (hit counters) does not
influence any returned value and is not modelled. -/

/-- Cache TTLs in seconds (module constants, at their defaults). -/
def TTL_REGISTERED : Int := 3600

def TTL_UNREGISTERED : Int := 21600

def TTL_FAILED : Int := 300

def TTL_PREVIEW : Int := 86400

/-- Translation of `_normalize_key`: strip, lowercase, remove one leading protocol /
`www.` occurrence each (in that order), strip trailing slashes, digest. -/
def normalizeKey (target : String) : String :=
  strStripSlashes
    (strDropLead (strDropLead (strDropLead (strLower target.trim)
      "https://") "http://") "www.")

/-- A cached score entry: digest key, stored dict, absolute expiry. -/
structure CacheEntry where
  key : String
  data : CObj
  expires_at : Rat
deriving DecidableEq

/-- The modelled Redis keyspace of the score cache. -/
structure CacheState where
  entries : List CacheEntry := []
deriving DecidableEq

/-- TTL selection in `ScoreCache.set`. -/
def chooseTTL (is_registered is_preview failed : Bool) : Int :=
  if failed then TTL_FAILED
  else if is_preview then TTL_PREVIEW
  else if is_registered then TTL_REGISTERED
  else TTL_UNREGISTERED

/-- The mutation `ScoreCache.set` performs on the dict of the caller before
serializing it: `score_data["_cached_at"] = time(); score_data["_ttl"] =
ttl`. -/
def withCacheMeta (score_data : CObj) (t : Rat) (ttl : Int) : CObj :=
  (score_data.set "_cached_at" (.vq t)).set "_ttl" (.vi ttl)

/-- Translation of `ScoreCache.set` at clock `t`: pick the TTL from the tier flags,
stamp the dict, and SETEX it under the digest key. -/
def cacheSet (st : CacheState) (t : Rat) (target : String) (score_data : CObj)
    (is_registered is_preview failed : Bool) : CacheState :=
  let ttl := chooseTTL is_registered is_preview failed
  let stored := withCacheMeta score_data t ttl
  { entries := { key := normalizeKey target, data := stored,
                 expires_at := t + (ttl : Rat) } ::
      st.entries.filter (fun e => ¬ e.key = normalizeKey target) }

/-- Translation of `ScoreCache.get` at clock `t`: on a live key, return the stored dict
with the extra `_cache = "hit"` marker; `None` on a miss or after
expiry. -/
def cacheGet (st : CacheState) (t : Rat) (target : String) : Option CObj :=
  match st.entries.find? (fun e => e.key = normalizeKey target) with
  | some e => if t < e.expires_at then some (e.data.set "_cache" (.vs "hit")) else none
  | none => none

theorem cobj_get_set_self : ∀ (d : CObj) (k : String) (v : CVal),
    (d.set k v).get k = some v
  | .nil, k, v => by simp [CObj.set, CObj.get]
  | .cons k2 w rest, k, v => by
      by_cases hk : k2 = k
      · simp [CObj.set, CObj.get, hk]
      · simp [CObj.set, CObj.get, hk, cobj_get_set_self rest k v]

theorem cobj_get_set_ne : ∀ (d : CObj) (k k2 : String) (v : CVal),
    k ≠ k2 → (d.set k v).get k2 = d.get k2
  | .nil, k, k2, v, hne => by simp [CObj.set, CObj.get, hne]
  | .cons k3 w rest, k, k2, v, hne => by
      by_cases hk : k3 = k
      · subst hk
        simp [CObj.set, CObj.get, hne]
      · simp [CObj.set, CObj.get, hk, cobj_get_set_ne rest k k2 v hne]

/-! ## v1 engine (`app/trust/engine.py`)

The pipeline fallback path (`compute_trust_score`, `except` branch)
calls `calculate_trust_score` with empty signals, so the v1 engine is
embedded here.  All floats are rationals; `datetime` values are Unix
seconds (`Option Rat` for `last_active`, with the current clock passed
in); the `calculated_at` ISO string is passed in as a parameter. -/

/-- Python `round(x, d)` on exact rationals: round half to even. -/
def roundHalfEven (x : Rat) : Int :=
  if x - ⌊x⌋ < 1/2 then ⌊x⌋
  else if 1/2 < x - ⌊x⌋ then ⌊x⌋ + 1
  else if ⌊x⌋ % 2 = 0 then ⌊x⌋ else ⌊x⌋ + 1

def pyRound (x : Rat) (d : Nat) : Rat :=
  (roundHalfEven (x * 10 ^ d) : Rat) / 10 ^ d

/-- Translation of `RiskLevel` enum. -/
inductive RiskLevel where
  | MINIMAL | LOW | MODERATE | ELEVATED | HIGH | SEVERE | CRITICAL
deriving DecidableEq

/-- Translation of `TrustGrade.value`. -/
def gradeValue : TrustGrade → String
  | .AAA => "AAA"
  | .AA => "AA"
  | .A => "A"
  | .BBB => "BBB"
  | .BB => "BB"
  | .B => "B"
  | .CCC => "CCC"
  | .D => "D"

/-- Translation of `RiskLevel.value`. -/
def riskValue : RiskLevel → String
  | .MINIMAL => "minimal"
  | .LOW => "low"
  | .MODERATE => "moderate"
  | .ELEVATED => "elevated"
  | .HIGH => "high"
  | .SEVERE => "severe"
  | .CRITICAL => "critical"

/-- Translation of `Recommendation.value`. -/
def recValue : Recommendation → String
  | .PROCEED => "PROCEED"
  | .PROCEED_WITH_CAUTION => "PROCEED_WITH_CAUTION"
  | .MANUAL_REVIEW => "MANUAL_REVIEW"
  | .ENHANCED_DUE_DILIGENCE => "ENHANCED_DUE_DILIGENCE"
  | .REJECT => "REJECT"

/-- Translation of `IdentitySignals` (v1), with its Python defaults. -/
structure IdentitySignals where
  domain_verified : Bool := false
  dns_txt_verified : Bool := false
  file_verified : Bool := false
  email_verified : Bool := false
  domain_age_days : Int := 0
  ssl_valid : Bool := false
  ssl_org_match : Bool := false
  dns_has_spf : Bool := false
  dns_has_dmarc : Bool := false
  dns_has_dkim : Bool := false
  has_structured_data : Bool := false
  has_organization_schema : Bool := false
  has_product_schema : Bool := false
  has_faq_schema : Bool := false
  has_wikidata_entry : Bool := false
  has_wikipedia_page : Bool := false
  has_crunchbase : Bool := false
  has_linkedin_company : Bool := false
  has_google_knowledge_panel : Bool := false
  has_business_registration : Bool := false
  has_sec_filing : Bool := false
  has_trademark : Bool := false
  incorporation_state : Option String := none
  ein_verified : Bool := false
  social_profiles : List (String × Bool) := []
  social_profiles_count : Int := 0
  name_consistent_across_sources : Bool := false
  address_consistent : Bool := false
  phone_verified : Bool := false
  has_agent_card : Bool := false
  has_model_card : Bool := false
  has_api_documentation : Bool := false
  geo_score : Rat := 0

/-- Translation of `IdentitySignals.calculate` (0-100). -/
def identityCalculate (s : IdentitySignals) : Rat :=
  let score : Rat :=
    (if s.domain_verified ∨ s.dns_txt_verified ∨ s.file_verified then 18 else 0) +
    (if s.email_verified then 7 else 0) +
    (if s.ssl_org_match then 5 else 0) +
    (if s.has_structured_data then 5 else 0) +
    (if s.has_organization_schema then 5 else 0) +
    (if s.has_product_schema ∨ s.has_faq_schema then 3 else 0) +
    (if s.ssl_valid then 2 else 0) +
    (if s.has_wikidata_entry then 7 else 0) +
    (if s.has_wikipedia_page then 7 else 0) +
    (if s.has_google_knowledge_panel then 6 else 0) +
    (if s.has_business_registration then 5 else 0) +
    (if s.has_sec_filing then 4 else 0) +
    (if s.has_trademark then 3 else 0) +
    (if s.ein_verified then 3 else 0) +
    (min (s.social_profiles_count * 2) 6 : Int) +
    (if s.has_crunchbase then 2 else 0) +
    (if s.has_linkedin_company then 2 else 0) +
    (if s.has_agent_card ∨ s.has_model_card then 2 else 0) +
    (if 3650 < s.domain_age_days then 8
     else if 1825 < s.domain_age_days then 6
     else if 365 < s.domain_age_days then 4
     else if 90 < s.domain_age_days then 2
     else if 30 < s.domain_age_days then 1
     else 0) +
    (if s.name_consistent_across_sources then 3 else 0) +
    (if s.address_consistent then 2 else 0) +
    (if s.dns_has_spf then 1 else 0) +
    (if s.dns_has_dmarc then 1 else 0) +
    (if s.dns_has_dkim then 1 else 0)
  min score 100

/-- Translation of `CompetenceSignals` (v1), with its Python defaults. -/
structure CompetenceSignals where
  total_transactions : Int := 0
  successful_transactions : Int := 0
  failed_transactions : Int := 0
  disputed_transactions : Int := 0
  avg_response_time_ms : Rat := 0
  uptime_pct : Rat := 0
  p99_latency_ms : Rat := 0
  last_active : Option Rat := none
  error_rate_7d : Rat := 0
  error_rate_30d : Rat := 0
  hallucination_reports : Int := 0
  accuracy_score : Rat := 0
  safety_score : Rat := 0
  bias_reports : Int := 0
  has_status_page : Bool := false
  status_page_uptime : Rat := 0
  github_stars : Int := 0
  github_last_commit_days : Int := 0
  npm_weekly_downloads : Int := 0
  pypi_weekly_downloads : Int := 0
  has_public_changelog : Bool := false
  has_public_roadmap : Bool := false
  stack_overflow_score : Int := 0
  g2_rating : Rat := 0
  trustpilot_rating : Rat := 0
  app_store_rating : Rat := 0
  has_public_api : Bool := false
  api_response_time_ms : Rat := 0
  has_rate_limiting : Bool := false
  has_versioning : Bool := false
  has_deprecation_policy : Bool := false
  visibility_score : Rat := 0

/-- Translation of `CompetenceSignals.calculate` (0-100); `now` is the current Unix
clock, used only by the `last_active` recency bracket. -/
def competenceCalculate (s : CompetenceSignals) (now : Rat) : Rat :=
  let txn : Rat :=
    if 0 < s.total_transactions then
      ((s.successful_transactions : Rat) / (s.total_transactions : Rat)) * 20 +
      (if 10000 < s.total_transactions then 10
       else if 1000 < s.total_transactions then 8
       else if 100 < s.total_transactions then 5
       else if 10 < s.total_transactions then 3
       else if 0 < s.total_transactions then 1 else 0) +
      (if 10 < s.total_transactions then
        (if 5/100 < (s.disputed_transactions : Rat) / (s.total_transactions : Rat)
         then -10
         else if 2/100 < (s.disputed_transactions : Rat) / (s.total_transactions : Rat)
         then -5
         else if 0 < (s.disputed_transactions : Rat) / (s.total_transactions : Rat)
         then -2 else 0)
       else 0)
    else 0
  let reli : Rat :=
    (if 999/10 < s.uptime_pct then 10
     else if 99 < s.uptime_pct then 7
     else if 95 < s.uptime_pct then 4
     else if 0 < s.uptime_pct then 1 else 0) +
    (if s.has_status_page then (3 + if 99 < s.status_page_uptime then 2 else 0)
     else 0)
  let effective_rt : Rat :=
    if s.avg_response_time_ms ≠ 0 then s.avg_response_time_ms
    else s.api_response_time_ms
  let rt : Rat :=
    if 0 < effective_rt then
      (if effective_rt < 100 then 8
       else if effective_rt < 200 then 6
       else if effective_rt < 500 then 4
       else if effective_rt < 1000 then 2
       else 1)
    else 0
  let ai : Rat :=
    (if s.hallucination_reports = 0 ∧ 10 < s.total_transactions then 6
     else if s.hallucination_reports < 3 then 3 else 0) +
    (if 0 < s.accuracy_score then (s.accuracy_score / 100) * 4 else 0) +
    (if 80 < s.safety_score then 2 else 0)
  let public_rep : Rat :=
    (if 0 < s.g2_rating then (min s.g2_rating 5) * 1 else 0) +
    (if 0 < s.trustpilot_rating then (min s.trustpilot_rating 5) * (6/10) else 0) +
    (if 0 < s.app_store_rating then (min s.app_store_rating 5) * (4/10) else 0)
  let pub : Rat :=
    min public_rep 8 +
    (if 1000 < s.github_stars then 4
     else if 100 < s.github_stars then 2
     else if 10 < s.github_stars then 1 else 0) +
    (if 100000 < s.npm_weekly_downloads ∨ 100000 < s.pypi_weekly_downloads
     then 3 else 0)
  let recency : Rat :=
    match s.last_active with
    | some la =>
        if now - la < 3600 then 10
        else if now - la < 86400 then 8
        else if now - la < 604800 then 5
        else if now - la < 2592000 then 3
        else 1
    | none =>
        if 0 < s.github_last_commit_days then
          (if s.github_last_commit_days < 7 then 7
           else if s.github_last_commit_days < 30 then 4
           else if s.github_last_commit_days < 90 then 2 else 0)
        else 0
  let maturity : Rat :=
    (if s.has_public_changelog then 1 else 0) +
    (if s.has_public_roadmap then 1 else 0) +
    (if s.has_rate_limiting then 1 else 0) +
    (if s.has_versioning then 1 else 0) +
    (if s.has_deprecation_policy then 1 else 0)
  min (max (txn + reli + rt + ai + pub + recency + maturity) 0) 100

/-- Translation of `SolvencySignals` (v1), with its Python defaults. -/
structure SolvencySignals where
  has_payment_method : Bool := false
  stripe_verified : Bool := false
  subscription_active : Bool := false
  subscription_tier : String := "free"
  account_age_days : Int := 0
  payment_failures_30d : Int := 0
  total_spend : Rat := 0
  is_publicly_traded : Bool := false
  market_cap_usd : Rat := 0
  has_public_financials : Bool := false
  revenue_growing : Bool := false
  profitable : Bool := false
  funding_total_usd : Rat := 0
  funding_rounds : Int := 0
  last_funding_date : Option String := none
  employee_count : Int := 0
  employee_count_growing : Bool := false
  has_treasury : Bool := false
  treasury_value_usd : Rat := 0
  token_market_cap : Rat := 0
  has_pending_lawsuits : Bool := false
  has_bankruptcy_filing : Bool := false
  bbb_rating : String := ""
  dun_bradstreet_score : Int := 0

/-- Translation of `tier_scores.get(subscription_tier, 0)`. -/
def tierScore (tier : String) : Rat :=
  if tier = "free" then 0
  else if tier = "pro" then 3
  else if tier = "business" then 4
  else if tier = "enterprise" then 5
  else 0

/-- Translation of `SolvencySignals.calculate` (0-100). -/
def solvencyCalculate (s : SolvencySignals) : Rat :=
  let internal : Rat :=
    (if s.has_payment_method then 10 else 0) +
    (if s.stripe_verified then 10 else 0) +
    (if s.subscription_active then 5 else 0) +
    tierScore s.subscription_tier
  let maturity : Rat :=
    if 730 < s.account_age_days then 12
    else if 365 < s.account_age_days then 9
    else if 180 < s.account_age_days then 6
    else if 90 < s.account_age_days then 4
    else if 30 < s.account_age_days then 2
    else 0
  let payment : Rat :=
    if s.payment_failures_30d = 0 ∧ 0 < s.total_spend then
      7 + (if 1000 < s.total_spend then 3
           else if 100 < s.total_spend then 1 else 0)
    else if s.payment_failures_30d ≤ 1 then 4
    else 0
  let publicFin : Rat :=
    (if s.is_publicly_traded then
       10 + (if 10000000000 < s.market_cap_usd then 5
             else if 1000000000 < s.market_cap_usd then 3 else 0)
     else if s.has_public_financials then 5 else 0) +
    (if s.profitable then 4 else 0) +
    (if s.revenue_growing then 3 else 0) +
    (if 100000000 < s.funding_total_usd then 5
     else if 10000000 < s.funding_total_usd then 3
     else if 1000000 < s.funding_total_usd then 2
     else if 0 < s.funding_rounds then 1 else 0)
  let size : Rat :=
    (if 10000 < s.employee_count then 6
     else if 1000 < s.employee_count then 4
     else if 100 < s.employee_count then 2
     else if 10 < s.employee_count then 1 else 0) +
    (if s.employee_count_growing then 2 else 0) +
    (if 80 < s.dun_bradstreet_score then 2 else 0)
  let negative : Rat :=
    (if s.has_bankruptcy_filing then -30 else 0) +
    (if s.has_pending_lawsuits then -10 else 0)
  min (max (internal + maturity + payment + publicFin + size + negative) 0) 100

/-- Translation of `ReputationSignals` (v1), with its Python defaults. -/
structure ReputationSignals where
  overall_sentiment : Rat := 0
  sentiment_sample_size : Int := 0
  sentiment_trend : String := "stable"
  news_mentions_30d : Int := 0
  news_sentiment : Rat := 0
  has_negative_press : Bool := false
  has_positive_press : Bool := false
  google_reviews_count : Int := 0
  google_reviews_rating : Rat := 0
  yelp_rating : Rat := 0
  glassdoor_rating : Rat := 0
  twitter_followers : Int := 0
  twitter_engagement_rate : Rat := 0
  reddit_mentions : Int := 0
  reddit_sentiment : Rat := 0
  has_bbb_accreditation : Bool := false
  has_trust_seals : Bool := false
  has_soc2 : Bool := false
  has_iso27001 : Bool := false
  has_gdpr_compliance : Bool := false
  has_hipaa_compliance : Bool := false
  community_reports_positive : Int := 0
  community_reports_negative : Int := 0
  community_reports_fraud : Int := 0
  on_spam_blocklist : Bool := false
  on_fraud_blocklist : Bool := false
  on_sanctions_list : Bool := false

/-- Translation of `ReputationSignals.calculate` (0-100).  The running score starts at
the neutral 50; the sanctions check zeroes it before the remaining
penalties are applied, exactly as the statement order does. -/
def reputationCalculate (s : ReputationSignals) : Rat :=
  let base : Rat := 50 +
    (if 0 < s.sentiment_sample_size then
       s.overall_sentiment * 20 +
       (if 1000 < s.sentiment_sample_size then 3
        else if 100 < s.sentiment_sample_size then 1 else 0)
     else 0)
  let review_score : Rat :=
    (if 0 < s.google_reviews_rating then
       (s.google_reviews_rating / 5) * 6 +
       (if 100 < s.google_reviews_count then 2 else 0)
     else 0) +
    (if 0 < s.glassdoor_rating then (s.glassdoor_rating / 5) * 4 else 0) +
    (if 0 < s.yelp_rating then (s.yelp_rating / 5) * 3 else 0)
  let wellKnown : Rat := base + min review_score 15 +
    (if s.has_soc2 then 5 else 0) +
    (if s.has_iso27001 then 4 else 0) +
    (if s.has_gdpr_compliance then 3 else 0) +
    (if s.has_hipaa_compliance then 2 else 0) +
    (if s.has_bbb_accreditation then 1 else 0) +
    (if 100000 < s.twitter_followers then 4
     else if 10000 < s.twitter_followers then 2
     else if 1000 < s.twitter_followers then 1 else 0) +
    (if 3/100 < s.twitter_engagement_rate then 2 else 0) +
    (if 3/10 < s.reddit_sentiment ∧ 10 < s.reddit_mentions then 2 else 0) +
    (if s.has_positive_press then 4 else 0) +
    (if s.has_negative_press then -6 else 0) +
    (if 50 < s.news_mentions_30d then 2
     else if 10 < s.news_mentions_30d then 1 else 0) +
    (if s.sentiment_trend = "improving" then 3
     else if s.sentiment_trend = "declining" then -5 else 0)
  let afterSanctions : Rat := if s.on_sanctions_list then 0 else wellKnown
  let penalized : Rat := afterSanctions +
    (if s.on_fraud_blocklist then -40 else 0) +
    (if s.on_spam_blocklist then -15 else 0) +
    (if 5 < s.community_reports_fraud then -20
     else if 0 < s.community_reports_fraud then -10 else 0)
  min (max penalized 0) 100

/-- Translation of `NetworkSignals` (v1), with its Python defaults. -/
structure NetworkSignals where
  verified_partners_count : Int := 0
  high_trust_connections : Int := 0
  low_trust_connections : Int := 0
  flagged_connections : Int := 0
  endorsements_received : Int := 0
  endorsement_avg_score : Rat := 0
  endorsements_given : Int := 0
  integration_partners : Int := 0
  notable_customers : Int := 0
  marketplace_presence : Int := 0
  pagerank_score : Rat := 0
  clustering_coefficient : Rat := 0
  is_bridge_entity : Bool := false

/-- Translation of `NetworkSignals.calculate` (0-100). -/
def networkCalculate (s : NetworkSignals) : Rat :=
  let voucher : Rat :=
    (if 10 < s.high_trust_connections then 20
     else if 5 < s.high_trust_connections then 15
     else if 2 < s.high_trust_connections then 10
     else if 0 < s.high_trust_connections then 5 else 0) +
    (if 5 < s.verified_partners_count then 10
     else if 0 < s.verified_partners_count then 5 else 0)
  let endorse : Rat :=
    if 0 < s.endorsements_received then
      (min (s.endorsement_avg_score / 1000) 1) * 10 +
      (if 10 < s.endorsements_received then 5
       else if 3 < s.endorsements_received then 3 else 0)
    else 0
  let integration : Rat :=
    (if 20 < s.integration_partners then 10
     else if 5 < s.integration_partners then 6
     else if 0 < s.integration_partners then 3 else 0) +
    (if 5 < s.notable_customers then 5
     else if 0 < s.notable_customers then 2 else 0)
  let graph : Rat :=
    (if 1/100 < s.pagerank_score then 5
     else if 1/1000 < s.pagerank_score then 3 else 0) +
    (if s.is_bridge_entity then 3 else 0) +
    (if 3 < s.marketplace_presence then 2 else 0)
  let penalties : Rat :=
    (if 3 < s.flagged_connections then -20
     else if 0 < s.flagged_connections then -10 else 0) +
    (if s.high_trust_connections * 2 < s.low_trust_connections then -10 else 0)
  min (max (30 + voucher + endorse + integration + graph + penalties) 0) 100

/-- Translation of `_count_data_points`: how many data points are present, out of a
maximum of 35. -/
def countDataPoints (identity : IdentitySignals) (competence : CompetenceSignals)
    (solvency : SolvencySignals) (reputation : ReputationSignals)
    (network : NetworkSignals) (is_verified is_registered : Bool) : Int :=
  (if is_verified then 1 else 0) +
  (if is_registered then 1 else 0) +
  (if identity.domain_verified ∨ identity.dns_txt_verified ∨
      identity.file_verified then 1 else 0) +
  (if identity.email_verified then 1 else 0) +
  (if identity.has_structured_data then 1 else 0) +
  (if identity.has_organization_schema then 1 else 0) +
  (if identity.has_wikidata_entry ∨ identity.has_wikipedia_page then 1 else 0) +
  (if identity.has_business_registration then 1 else 0) +
  (if 0 < identity.social_profiles_count then 1 else 0) +
  (if 0 < identity.domain_age_days then 1 else 0) +
  (if identity.ssl_valid then 1 else 0) +
  (if 0 < competence.total_transactions then 1 else 0) +
  (if 0 < competence.uptime_pct then 1 else 0) +
  (if 0 < competence.avg_response_time_ms ∨
      0 < competence.api_response_time_ms then 1 else 0) +
  (if competence.last_active.isSome then 1 else 0) +
  (if 0 < competence.visibility_score then 1 else 0) +
  (if 0 < competence.g2_rating ∨ 0 < competence.trustpilot_rating then 1 else 0) +
  (if 0 < competence.github_stars then 1 else 0) +
  (if competence.has_status_page then 1 else 0) +
  (if solvency.has_payment_method then 1 else 0) +
  (if solvency.is_publicly_traded then 1 else 0) +
  (if 0 < solvency.funding_total_usd then 1 else 0) +
  (if 0 < solvency.employee_count then 1 else 0) +
  (if 0 < solvency.account_age_days then 1 else 0) +
  (if 0 < reputation.sentiment_sample_size then 1 else 0) +
  (if 0 < reputation.google_reviews_count then 1 else 0) +
  (if 0 < reputation.news_mentions_30d then 1 else 0) +
  (if reputation.has_soc2 ∨ reputation.has_iso27001 then 1 else 0) +
  (if 0 < reputation.twitter_followers then 1 else 0) +
  (if 0 < network.high_trust_connections then 1 else 0) +
  (if 0 < network.endorsements_received then 1 else 0) +
  (if 0 < network.integration_partners then 1 else 0) +
  (if 0 < network.pagerank_score then 1 else 0)

/-- Dict literal builder. -/
def mkObj : List (String × CVal) → CObj
  | [] => .nil
  | (k, v) :: rest => .cons k v (mkObj rest)

/-- The `TrustScore` dataclass (v1). -/
structure TrustScoreV1 where
  score : Int
  grade : TrustGrade
  risk_level : RiskLevel
  recommendation : Recommendation
  identity_score : Rat
  competence_score : Rat
  solvency_score : Rat
  reputation_score : Rat
  network_score : Rat
  identity_signals : CObj
  competence_signals : CObj
  solvency_signals : CObj
  reputation_signals : CObj
  network_signals : CObj
  entity_id : String
  entity_name : String
  entity_type : String
  is_verified : Bool
  is_registered : Bool
  calculated_at : String
  confidence : Rat
  data_freshness : String
  data_sources : List String
  signal_count : Int
  engine_version : String := "2.0.0"
  engine_author : String := "James Rausch — Lead Visionary, Market2Agent"
deriving DecidableEq

/-- Translation of `calculate_trust_score` (v1).  `now` is the Unix clock (used by the
competence recency bracket), `nowIso` the ISO timestamp string the code
stores in `calculated_at`. -/
def calculate_trust_score (entity_id entity_name : String)
    (entity_type : String := "unknown") (is_verified : Bool := false)
    (is_registered : Bool := false)
    (identity : Option IdentitySignals := none)
    (competence : Option CompetenceSignals := none)
    (solvency : Option SolvencySignals := none)
    (reputation : Option ReputationSignals := none)
    (network : Option NetworkSignals := none)
    (data_freshness : String := "live")
    (data_sources : Option (List String) := none)
    (now : Rat := 0) (nowIso : String := "") : TrustScoreV1 :=
  let identity := identity.getD {}
  let competence := competence.getD {}
  let solvency := solvency.getD {}
  let reputation := reputation.getD {}
  let network := network.getD {}
  let id_score := identityCalculate identity
  let comp_score := competenceCalculate competence now
  let solv_score := solvencyCalculate solvency
  let rep_score := reputationCalculate reputation
  let net_score := networkCalculate network
  let composite : Rat := id_score * (30/100) + comp_score * (25/100) +
    solv_score * (15/100) + rep_score * (20/100) + net_score * (10/100)
  -- sub-scores are clamped to [0, 100], so the composite is non-negative
  -- and Python `int(...)` truncation is the floor
  let score_1000 : Int := ⌊composite * 10⌋
  let grade : TrustGrade :=
    if 900 ≤ score_1000 then .AAA
    else if 800 ≤ score_1000 then .AA
    else if 700 ≤ score_1000 then .A
    else if 600 ≤ score_1000 then .BBB
    else if 500 ≤ score_1000 then .BB
    else if 400 ≤ score_1000 then .B
    else if 200 ≤ score_1000 then .CCC
    else .D
  let risk : RiskLevel :=
    if 850 ≤ score_1000 then .MINIMAL
    else if 700 ≤ score_1000 then .LOW
    else if 550 ≤ score_1000 then .MODERATE
    else if 400 ≤ score_1000 then .ELEVATED
    else if 250 ≤ score_1000 then .HIGH
    else if 100 ≤ score_1000 then .SEVERE
    else .CRITICAL
  let rec_ : Recommendation :=
    if 700 ≤ score_1000 then .PROCEED
    else if 550 ≤ score_1000 then .PROCEED_WITH_CAUTION
    else if 400 ≤ score_1000 then .MANUAL_REVIEW
    else if 200 ≤ score_1000 then .ENHANCED_DUE_DILIGENCE
    else .REJECT
  let signal_count := countDataPoints identity competence solvency reputation
    network is_verified is_registered
  let confidence0 : Rat := min ((signal_count : Rat) / 35) 1
  let confidence := if is_registered then confidence0 else confidence0 * (7/10)
  { score := score_1000
    grade := grade
    risk_level := risk
    recommendation := rec_
    identity_score := id_score
    competence_score := comp_score
    solvency_score := solv_score
    reputation_score := rep_score
    network_score := net_score
    identity_signals := mkObj [
      ("domain_verified", .vb identity.domain_verified),
      ("email_verified", .vb identity.email_verified),
      ("structured_data", .vb identity.has_structured_data),
      ("knowledge_graph", .vb (identity.has_wikidata_entry ||
        identity.has_wikipedia_page)),
      ("business_registration", .vb identity.has_business_registration),
      ("social_profiles", .vi identity.social_profiles_count),
      ("domain_age_days", .vi identity.domain_age_days),
      ("agent_card", .vb identity.has_agent_card)]
    competence_signals := mkObj [
      ("total_transactions", .vi competence.total_transactions),
      ("success_rate",
        if 0 < competence.total_transactions then
          .vq (pyRound ((competence.successful_transactions : Rat) /
            (competence.total_transactions : Rat) * 100) 1)
        else .vnull),
      ("uptime_pct",
        if competence.uptime_pct ≠ 0 then .vq competence.uptime_pct else .vnull),
      ("public_rating",
        if competence.g2_rating ≠ 0 then .vq competence.g2_rating
        else if competence.trustpilot_rating ≠ 0 then
          .vq competence.trustpilot_rating
        else .vnull),
      ("github_stars",
        if competence.github_stars ≠ 0 then .vi competence.github_stars
        else .vnull),
      ("has_status_page", .vb competence.has_status_page)]
    solvency_signals := mkObj [
      ("payment_verified", .vb solvency.stripe_verified),
      ("subscription_active", .vb solvency.subscription_active),
      ("tier", .vs solvency.subscription_tier),
      ("publicly_traded", .vb solvency.is_publicly_traded),
      ("funding_total_usd",
        if solvency.funding_total_usd ≠ 0 then .vq solvency.funding_total_usd
        else .vnull),
      ("employee_count",
        if solvency.employee_count ≠ 0 then .vi solvency.employee_count
        else .vnull)]
    reputation_signals := mkObj [
      ("overall_sentiment",
        if 0 < reputation.sentiment_sample_size then
          .vq (pyRound reputation.overall_sentiment 2)
        else .vnull),
      ("sentiment_trend", .vs reputation.sentiment_trend),
      ("google_reviews_rating",
        if reputation.google_reviews_rating ≠ 0 then
          .vq reputation.google_reviews_rating
        else .vnull),
      ("has_trust_certifications", .vb (reputation.has_soc2 ||
        reputation.has_iso27001)),
      ("on_blocklist", .vb (reputation.on_fraud_blocklist ||
        reputation.on_spam_blocklist)),
      ("community_fraud_reports", .vi reputation.community_reports_fraud)]
    network_signals := mkObj [
      ("high_trust_connections", .vi network.high_trust_connections),
      ("verified_partners", .vi network.verified_partners_count),
      ("endorsements", .vi network.endorsements_received),
      ("integration_partners", .vi network.integration_partners),
      ("flagged_connections", .vi network.flagged_connections)]
    entity_id := entity_id
    entity_name := entity_name
    entity_type := entity_type
    is_verified := is_verified
    is_registered := is_registered
    calculated_at := nowIso
    confidence := confidence
    data_freshness := data_freshness
    data_sources :=
      if is_registered then
        (match data_sources with
         | some l => if l = [] then ["registry"] else l
         | none => ["registry"])
      else ["public_web"]
    signal_count := signal_count }

/-- Translation of `TrustScore.to_dict`. -/
def TrustScoreV1.toDict (r : TrustScoreV1) : CObj := mkObj [
  ("score", .vi r.score),
  ("grade", .vs (gradeValue r.grade)),
  ("risk_level", .vs (riskValue r.risk_level)),
  ("recommendation", .vs (recValue r.recommendation)),
  ("identity_score", .vq (pyRound r.identity_score 1)),
  ("competence_score", .vq (pyRound r.competence_score 1)),
  ("solvency_score", .vq (pyRound r.solvency_score 1)),
  ("reputation_score", .vq (pyRound r.reputation_score 1)),
  ("network_score", .vq (pyRound r.network_score 1)),
  ("entity_id", .vs r.entity_id),
  ("entity_name", .vs r.entity_name),
  ("entity_type", .vs r.entity_type),
  ("is_verified", .vb r.is_verified),
  ("is_registered", .vb r.is_registered),
  ("calculated_at", .vs r.calculated_at),
  ("confidence", .vq (pyRound r.confidence 2)),
  ("data_freshness", .vs r.data_freshness),
  ("data_sources", .vlist r.data_sources),
  ("signal_count", .vi r.signal_count),
  ("engine_version", .vs r.engine_version),
  ("engine_author", .vs r.engine_author)]

/-- Translation of `TrustScore.to_full`. -/
def TrustScoreV1.toFull (r : TrustScoreV1) : CObj :=
  r.toDict.set "signals" (.vobj (mkObj [
    ("identity", .vobj r.identity_signals),
    ("competence", .vobj r.competence_signals),
    ("solvency", .vobj r.solvency_signals),
    ("reputation", .vobj r.reputation_signals),
    ("network", .vobj r.network_signals)]))

/-! ## pipeline entry points (`app/compute/pipeline.py` /
`app/compute/pipeline_v3.py`)

Both entry points wrap their whole collect-and-score body in
`try/except Exception`; the body (registry lookup, collectors, scoring)
performs network and storage IO and is therefore an oracle here: a run
either produced a result dict or raised.  Wall-clock elapsed times that
the code reports are 0 in the model (a single clock value per run); the
lock keyspace only influences which branch runs, so the lock outcome is
the `lockAcquired` parameter; `release_lock` in the `finally` block
touches only that keyspace and swallows its own errors. -/

/-- Hex digest of a string (`hashlib.sha256(...).hexdigest()[:16]`),
modelled as an injective digest, i.e. the string itself. -/
def hexDigest (s : String) : String := s

/-- What the guarded body of a pipeline run did. -/
inductive BodyOutcome where
  | ok (result : CObj) (is_registered : Bool) (collectors_run : Int)
  | exn (e : String)

/-- Translation of `compute_trust_score` (v1 pipeline): cache check, lock, body,
cache-store, `_pipeline` stamping — and on any body exception the v1
fallback score with `data_freshness="failed"`, cached under the failed
tier, returned instead of raising. -/
def compute_trust_score_model (st : CacheState) (t : Rat) (now : Rat)
    (nowIso : String) (target : String)
    (force_refresh is_preview lockAcquired : Bool) (body : BodyOutcome) :
    CObj × CacheState :=
  match (if force_refresh then none else cacheGet st t target) with
  | some cached =>
      (cached.set "_pipeline" (.vobj (mkObj [("source", .vs "cache"),
        ("pipeline_time_ms", .vq 0)])), st)
  | none =>
      match (if lockAcquired then none else cacheGet st (t + 3/2) target) with
      | some cached =>
          (cached.set "_pipeline"
            (.vobj (mkObj [("source", .vs "cache_after_lock_wait")])), st)
      | none =>
          match body with
          | .ok result is_registered collectors_run =>
              let ttl := chooseTTL is_registered is_preview false
              let stored := withCacheMeta result t ttl
              let final := stored.set "_pipeline" (.vobj (mkObj [
                ("source", .vs "computed"), ("pipeline_time_ms", .vq 0),
                ("is_registered", .vb is_registered),
                ("collectors_run", .vi collectors_run)]))
              (final, cacheSet st t target result is_registered is_preview false)
          | .exn e =>
              let fallback := (calculate_trust_score
                ("error:" ++ hexDigest target) target "unknown" false false
                none none none none none "failed" (some ["none"])
                now nowIso).toFull
              let result := fallback.set "_pipeline" (.vobj (mkObj [
                ("source", .vs "fallback"), ("error", .vs e)]))
              (withCacheMeta result t TTL_FAILED,
               cacheSet st t target result false false true)

/-- Translation of `score_entity` (v3 pipeline): cache check, lock, body, cache-store —
and on any body exception a fixed degraded dict with an `error` field is
returned, WITHOUT being stored in the cache. -/
def score_entity_model (st : CacheState) (t : Rat) (target : String)
    (force_refresh lockAcquired : Bool) (body : BodyOutcome) :
    CObj × CacheState :=
  match (if force_refresh then none else cacheGet st t target) with
  | some cached => (cached.set "_source" (.vs "cache"), st)
  | none =>
      match (if lockAcquired then none else cacheGet st (t + 3/2) target) with
      | some cached => (cached, st)
      | none =>
          match body with
          | .ok response _ _ =>
              (withCacheMeta response t TTL_UNREGISTERED,
               cacheSet st t target response false false false)
          | .exn e =>
              (mkObj [("target", .vs target), ("score", .vi 0),
                ("grade", .vs "D"), ("recommendation", .vs "REJECT"),
                ("confidence", .vq 0), ("confidence_label", .vs "error"),
                ("is_verified", .vb false), ("is_registered", .vb false),
                ("engine_version", .vs "3.0.0"), ("error", .vs e)], st)

/-! ## Helper lemmas shared by the claim theorems -/

theorem clampCap_bounds (raw cap : Int) (h : 0 ≤ cap) :
    0 ≤ clampCap raw cap ∧ clampCap raw cap ≤ cap := by
  unfold clampCap
  omega

/-- The hard-cap rules of `apply_hard_caps` as a priority-ordered list:
condition, ceiling, reason. -/
def capRules : List ((RawSignals → Bool) × Int × String) :=
  [(fun s => s.on_sanctions_list, 0, "SANCTIONED"),
   (fun s => s.on_fraud_blocklist, 50, "FRAUD_BLOCKLISTED"),
   (fun s => s.gsb_queried && s.gsb_flagged, 150,
     "GOOGLE_SAFE_BROWSING_FLAGGED"),
   (fun s => s.vt_queried &&
     decide (6 ≤ s.vt_malicious_count + s.vt_suspicious_count), 200,
     "VIRUSTOTAL_HIGH_FLAGS"),
   (fun s => decide (0 < s.domain_age_days) &&
     decide (s.domain_age_days < 30) && decide (s.tranco_rank = 0), 100,
     "NEW_DOMAIN_NO_REPUTATION")]

/-- Apply the FIRST applicable rule of `capRules` (not the one with the
lowest resulting value). -/
def applyFirstCap (score : Int) (s : RawSignals) : Int × Option String :=
  match capRules.find? (fun r => r.1 s) with
  | some r => (min score r.2.1, some r.2.2)
  | none => (score, none)

/-- Generic cache round-trip: a `set` followed by a `get` on the same
target before the TTL expires serves the stored dict plus the
`_cache = "hit"` marker. -/
theorem cacheSet_get_hit (st : CacheState) (t u : Rat) (target : String)
    (d : CObj) (r p f : Bool) (h : u < t + ((chooseTTL r p f : Int) : Rat)) :
    cacheGet (cacheSet st t target d r p f) u target =
      some ((withCacheMeta d t (chooseTTL r p f)).set "_cache" (.vs "hit")) := by
  unfold cacheGet cacheSet
  simp only [List.find?]
  simp [h]

/-! ## Claim theorems -/

/-- C2: for every `RawSignals` input, each category scorer returns a
sub-score clamped to `[0, cap]` — 300 for existence & age, 300 for
security & integrity, 250 for reputation & scale, 150 for operational
maturity — and the composite score that `compute_score` feeds into the
hard-cap overrides is exactly the sum of the four clamped sub-scores
(the final score is the cap function applied to that sum). -/
theorem C2_subscore_caps_and_composite (s : RawSignals) :
    (0 ≤ (score_existence_and_age s).1 ∧ (score_existence_and_age s).1 ≤ 300) ∧
    (0 ≤ (score_security_and_integrity s).1 ∧
      (score_security_and_integrity s).1 ≤ 300) ∧
    (0 ≤ (score_reputation_and_scale s).1 ∧
      (score_reputation_and_scale s).1 ≤ 250) ∧
    (0 ≤ (score_operational_maturity s).1 ∧
      (score_operational_maturity s).1 ≤ 150) ∧
    (compute_score s).score =
      (apply_hard_caps ((score_existence_and_age s).1 +
        (score_security_and_integrity s).1 + (score_reputation_and_scale s).1 +
        (score_operational_maturity s).1) s).1 :=
  ⟨clampCap_bounds _ EA_CAP (by decide),
   clampCap_bounds _ SI_CAP (by decide),
   clampCap_bounds _ RS_CAP (by decide),
   clampCap_bounds _ OM_CAP (by decide),
   rfl⟩

/-- The C3 counterexample input: safe-browsing flagged and a 5-day-old
domain with no Tranco rank (everything else at the dataclass defaults). -/
def c3sig : RawSignals :=
  { gsb_queried := true, gsb_flagged := true, domain_age_days := 5,
    tranco_rank := 0 }

/-- C3 counterexample: with the Google-Safe-Browsing flag set AND the
young-domain-no-reputation condition both holding (domain 5 days old, no
Tranco rank), `apply_hard_caps` at a pre-override score of 300 reports
the GSB cap with ceiling value 150, although the NEW_DOMAIN cap would
give the lower resulting value 100 — the reported reason is therefore
NOT the one whose ceiling yields the lowest value. -/
theorem C3_counterexample :
    apply_hard_caps 300 c3sig = (150, some "GOOGLE_SAFE_BROWSING_FLAGGED") ∧
    (0 < c3sig.domain_age_days ∧ c3sig.domain_age_days < 30 ∧
      c3sig.tranco_rank = 0) ∧
    min (300 : Int) 100 < min (300 : Int) 150 := by
  refine ⟨by decide, by decide, by decide⟩

/-- C3 (amended): for every non-negative pre-override score,
`apply_hard_caps` never increases the score, and the cap it reports is
the FIRST applicable condition in the fixed priority order sanctions,
fraud blocklist, safe browsing, VirusTotal flags, young domain — not the
condition with the lowest resulting ceiling. -/
theorem C3_caps_decrease_first_applies (score : Int) (s : RawSignals)
    (h : 0 ≤ score) :
    (apply_hard_caps score s).1 ≤ score ∧
    apply_hard_caps score s = applyFirstCap score s := by
  constructor
  · unfold apply_hard_caps
    split_ifs <;> simp [min_le_left, h]
  · unfold apply_hard_caps applyFirstCap capRules
    simp only [List.find?]
    by_cases h1 : s.on_sanctions_list = true <;>
      by_cases h2 : s.on_fraud_blocklist = true <;>
        by_cases h3 : (s.gsb_queried && s.gsb_flagged) = true <;>
          by_cases h4 : (s.vt_queried &&
            decide (6 ≤ s.vt_malicious_count + s.vt_suspicious_count)) = true <;>
            by_cases h5 : (decide (0 < s.domain_age_days) &&
              decide (s.domain_age_days < 30) &&
              decide (s.tranco_rank = 0)) = true <;>
      simp [h1, h2, h3, h4, h5, min_eq_right h, Bool.not_eq_true]

theorem C3_witness :
    (apply_hard_caps 300 c3sig).1 ≤ 300 ∧
    apply_hard_caps 300 c3sig = applyFirstCap 300 c3sig :=
  C3_caps_decrease_first_applies 300 c3sig (by norm_num)

/-- The nine sensor identifiers `observe_entity` launches for a domain
target, as they appear in `sources_queried`. -/
def nineSources : List String :=
  ["tranco", "crtsh", "virustotal", "dns", "http_headers", "whois",
   "web_presence", "knowledge_graph", "social"]

/-- The C4 scenario input: `example-safe.com` with the spec scenario
signals, every other field at the dataclass default, and all nine
sources responding. -/
def c4sig : RawSignals :=
  { target := "example-safe.com", domain_age_days := 4000, ssl_valid := true,
    dns_has_spf := true, dns_has_dmarc := true, tranco_rank := 500,
    vt_malicious_count := 0, sources_queried := nineSources,
    sources_responded := nineSources }

/-- C4 counterexample: on the spec scenario input, `compute_score` gives
a composite score of 230 — far below the A band threshold of 650 — and
the recommendation ENHANCED_DUE_DILIGENCE, not PROCEED.  (With
`vt_queried` and `gsb_queried` at their defaults, the clean VirusTotal
and Safe-Browsing bonuses do not apply, and the scenario signals earn
only 95 + 55 + 80 + 0 points.) -/
theorem C4_counterexample :
    ¬(650 ≤ (compute_score c4sig).score ∧
      (compute_score c4sig).recommendation = Recommendation.PROCEED) := by
  intro hcl
  have hscore : (compute_score c4sig).score = 230 := by decide
  rw [hscore] at hcl
  exact absurd hcl.1 (by norm_num)

/-- C4 (amended): on the spec scenario input, `compute_score` returns
confidence 1.0 and applies no hard cap — but the composite score is 230,
in the CCC grade band, with recommendation ENHANCED_DUE_DILIGENCE
(not the claimed A/AA band with PROCEED). -/
theorem C4_scenario_result :
    (compute_score c4sig).confidence = 1 ∧
    (compute_score c4sig).cap_applied = none ∧
    (compute_score c4sig).score = 230 ∧
    (compute_score c4sig).grade = TrustGrade.CCC ∧
    (compute_score c4sig).recommendation =
      Recommendation.ENHANCED_DUE_DILIGENCE := by
  refine ⟨?_, by decide, by decide, by decide, by decide⟩
  norm_num [compute_score, c4sig, nineSources]

/-- The C1 counterexample collector outcomes: the knowledge-graph sensor
succeeds, the social sensor raises (times out). -/
def c1Outcomes : String → CollectorOutcome := fun n =>
  if n = "social" then .fail "timeout" else .ok [("has_wikipedia", .vb true)]

/-- The C1 counterexample scoring input: a free-text (no-domain) target,
for which only the two universal sensors were launched, both counted as
responded. -/
def c1sig : RawSignals :=
  { target := "Some Company Name",
    sources_queried := sourcesQueriedFor false,
    sources_responded := sourcesRespondedFor false c1Outcomes }

/-- C1 counterexample: for a no-domain target only two sensors are
queried, and the social sensor RAISED — yet `sources_responded` still
lists it (because `_timed_collect` swallows the exception and returns a
tuple), and `compute_score` reports confidence 2/9, not the claimed
responded/queried = 2/2 = 1. -/
theorem C1_counterexample :
    sourcesRespondedFor false c1Outcomes = ["knowledge_graph", "social"] ∧
    c1Outcomes "social" = .fail "timeout" ∧
    (compute_score c1sig).confidence = 2/9 ∧
    ((2 : Rat)/9) ≠ 2/2 := by
  refine ⟨by decide, by decide, ?_, by norm_num⟩
  norm_num [compute_score, c1sig, sourcesRespondedFor, sourcesQueriedFor,
    universalSensors, timedCollect, c1Outcomes]

theorem timedCollect_fst (n : String) (o : CollectorOutcome) :
    (timedCollect n o).1 = n := by
  cases o <;> rfl

theorem map_timedCollect_names (oc : String → CollectorOutcome) :
    ∀ l : List String,
      ((l.map (fun n => timedCollect n (oc n))).map (fun r => r.1)) = l
  | [] => rfl
  | n :: rest => by
      simp only [List.map_cons, timedCollect_fst]
      rw [map_timedCollect_names oc rest]

/-- C1 (amended): `compute_score` divides the responded-source count by
the FIXED constant 9, not by the number of sources queried for the
target; the value lies in [0,1] whenever at most nine sources responded.
And in `observe_entity`, every launched sensor ends up in
`sources_responded` — even one whose collector raised or timed out —
because `_timed_collect` converts every failure into an
empty-signal tuple; so responded always equals queried, and at most nine
sensors are ever launched. -/
theorem C1_confidence_fixed_denominator :
    (∀ s : RawSignals, s.sources_responded.length ≤ 9 →
      0 ≤ (compute_score s).confidence ∧ (compute_score s).confidence ≤ 1 ∧
      (compute_score s).confidence = (s.sources_responded.length : Rat) / 9) ∧
    (∀ (hasDomain : Bool) (oc : String → CollectorOutcome),
      sourcesRespondedFor hasDomain oc = sourcesQueriedFor hasDomain ∧
      (sourcesQueriedFor hasDomain).length ≤ 9) := by
  constructor
  · intro s h
    have hconf : (compute_score s).confidence =
        (s.sources_responded.length : Rat) / 9 := by
      simp [compute_score]
    refine ⟨?_, ?_, hconf⟩
    · rw [hconf]
      positivity
    · rw [hconf, div_le_one (by norm_num)]
      exact_mod_cast h
  · intro hasDomain oc
    refine ⟨?_, ?_⟩
    · unfold sourcesRespondedFor
      exact map_timedCollect_names oc (sourcesQueriedFor hasDomain)
    · cases hasDomain <;> decide

theorem C1_witness :
    (0 ≤ (compute_score c1sig).confidence ∧
      (compute_score c1sig).confidence ≤ 1 ∧
      (compute_score c1sig).confidence =
        (c1sig.sources_responded.length : Rat) / 9) ∧
    (sourcesRespondedFor true c1Outcomes = sourcesQueriedFor true ∧
      (sourcesQueriedFor true).length ≤ 9) :=
  ⟨C1_confidence_fixed_denominator.1 c1sig (by decide),
   C1_confidence_fixed_denominator.2 true c1Outcomes⟩

/-- A breaker that has legitimately reached half-open: three failures at
times 0, 1, 2 trip the threshold-3 breaker open; at time 100 the 60-unit
recovery window has elapsed, so `can_execute` moves it to half-open. -/
def c5opened : CircuitBreaker :=
  recordFailure 2 (recordFailure 1 (recordFailure 0
    { threshold := 3, recovery_timeout := 60 }))

def c5half : CircuitBreaker := (canExecute 100 c5opened).2

/-- C5 counterexample: with the breaker half-open and a trial call
already admitted, a SECOND `can_execute` is also admitted — `can_execute`
returns `True` unconditionally in the half-open state, so the "exactly
one trial call" gating does not exist in the code. -/
theorem C5_counterexample :
    c5half.state = BreakerState.halfOpen ∧
    (canExecute 100 c5half).1 = true ∧
    (canExecute 100 (canExecute 100 c5half).2).1 = true := by
  refine ⟨by decide, by decide, by decide⟩

/-- C5 (amended): in every reachable half-open breaker, `can_execute`
admits every call (not exactly one); `record_success` resets the breaker
to closed with failure count zero; `record_failure` returns the breaker
to open (the failure count had already met the threshold when it
opened) and resets the recovery timer, so calls are rejected until a
full recovery window has elapsed after the new failure time. -/
theorem C5_halfopen_transitions (b : CircuitBreaker) (hr : BreakerReach b)
    (hs : b.state = BreakerState.halfOpen) (t : Int) :
    (canExecute t b).1 = true ∧
    (recordSuccess b).state = BreakerState.closed ∧
    (recordSuccess b).failures = 0 ∧
    (recordFailure t b).state = BreakerState.opn ∧
    (recordFailure t b).last_failure_time = t ∧
    (∀ u : Int, u - t ≤ b.recovery_timeout →
      (canExecute u (recordFailure t b)).1 = false) := by
  have hth : b.threshold ≤ b.failures := breakerReach_failures hr (Or.inr hs)
  refine ⟨?_, rfl, rfl, ?_, rfl, ?_⟩
  · unfold canExecute
    rw [hs]
  · unfold recordFailure
    simp only
    rw [if_pos (by omega)]
  · intro u hu
    have hstate : (recordFailure t b).state = BreakerState.opn := by
      unfold recordFailure
      simp only
      rw [if_pos (by omega)]
    unfold canExecute
    rw [hstate]
    have hlast : (recordFailure t b).last_failure_time = t := rfl
    have hrt : (recordFailure t b).recovery_timeout = b.recovery_timeout := rfl
    rw [hlast, hrt, if_neg (by omega)]

theorem C5_witness :
    (canExecute 100 c5half).1 = true ∧
    (recordSuccess c5half).state = BreakerState.closed ∧
    (recordSuccess c5half).failures = 0 ∧
    (recordFailure 100 c5half).state = BreakerState.opn ∧
    (recordFailure 100 c5half).last_failure_time = 100 ∧
    (canExecute 150 (recordFailure 100 c5half)).1 = false := by
  have hr : BreakerReach c5half :=
    BreakerReach.exec 100 _ (BreakerReach.fail 2 _ (BreakerReach.fail 1 _
      (BreakerReach.fail 0 _ (BreakerReach.init 3 60))))
  have h := C5_halfopen_transitions c5half hr (by decide) 100
  exact ⟨h.1, h.2.1, h.2.2.1, h.2.2.2.1, h.2.2.2.2.1,
    h.2.2.2.2.2 150 (by decide)⟩

/-- C6: for every entity and every sequence of single-writer
`create_block` appends, the stored hot list satisfies the linkage
invariant — every stored `block_hash` is the recomputation of its own
hashed fields, the `prev_hash` of each block is the content hash of the block
with the immediately preceding index and its index is that index
plus one (`chainOK` bundles exactly these three conditions), and any
chain-initial block (index 0) carries the genesis constant as its
predecessor hash. -/
theorem C6_chain_linkage (entity_id : String) (inputs : List ObsInput) :
    chainOK (runCreates entity_id inputs).blocks ∧
    ∀ b ∈ (runCreates entity_id inputs).blocks,
      b.block_index = 0 → b.prev_hash = BlockHash.genesis :=
  ⟨(chainInv_runCreates entity_id inputs).1,
   (chainInv_runCreates entity_id inputs).2.2.2⟩

/-- Two concrete observations for the chain witnesses. -/
def c6inputs : List ObsInput :=
  [{ sensor := "dns", signals := [("dns_has_spf", .vb true)],
     observed_at := "2026-01-01T00:00:00+00:00" },
   { sensor := "virustotal", signals := [("vt_malicious_count", .vi 0)],
     observed_at := "2026-01-01T00:00:05+00:00" }]

theorem C6_witness :
    chainOK (runCreates "stripe.com" c6inputs).blocks ∧
    (∀ b ∈ (runCreates "stripe.com" c6inputs).blocks,
      b.block_index = 0 → b.prev_hash = BlockHash.genesis) ∧
    ((runCreates "stripe.com" c6inputs).blocks.map
      (fun b => b.block_index)) = [1, 0] :=
  ⟨(C6_chain_linkage "stripe.com" c6inputs).1,
   (C6_chain_linkage "stripe.com" c6inputs).2,
   by decide⟩

/-- C7: a chain produced only by sequential `create_block` appends
verifies with zero breaks (for every history limit); and mutating the
stored signal payload of any block that `verify_chain` examines, without
recomputing its stored hash, makes `verify_chain` report a
`hash_mismatch` break for that block. -/
theorem C7_verify_zero_and_detects :
    (∀ (entity_id : String) (inputs : List ObsInput) (limit : Nat),
      (verify_chain (runCreates entity_id inputs) limit).breaks = []) ∧
    (∀ (entity_id : String) (inputs : List ObsInput) (limit pos : Nat)
      (h1 : pos < (runCreates entity_id inputs).blocks.length)
      (h2 : pos < limit) (newSig : Signals),
      newSig ≠ ((runCreates entity_id inputs).blocks.get ⟨pos, h1⟩).signals →
      VerifyBreak.hashMismatch
        ((runCreates entity_id inputs).blocks.get ⟨pos, h1⟩).block_index
        (Block.computeHash
          { (runCreates entity_id inputs).blocks.get ⟨pos, h1⟩ with
            signals := newSig })
        (((runCreates entity_id inputs).blocks.get ⟨pos, h1⟩).block_hash) ∈
        (verify_chain (mutateSignals (runCreates entity_id inputs) pos newSig)
          limit).breaks) :=
  ⟨fun entity_id inputs limit =>
    verify_chain_zero (chainInv_runCreates entity_id inputs).1 limit,
   fun entity_id inputs limit pos h1 h2 newSig hne =>
    verify_chain_detects (chainInv_runCreates entity_id inputs) h1 h2 hne⟩

theorem C7_witness :
    (verify_chain (runCreates "stripe.com" c6inputs) 100).breaks = [] ∧
    (verify_chain (mutateSignals (runCreates "stripe.com" c6inputs) 0
      [("dns_has_spf", CVal.vb false)]) 100).breaks ≠ [] := by
  refine ⟨C7_verify_zero_and_detects.1 "stripe.com" c6inputs 100, ?_⟩
  intro habs
  have hm := C7_verify_zero_and_detects.2 "stripe.com" c6inputs 100 0
    (by decide) (by decide) [("dns_has_spf", CVal.vb false)] (by decide)
  rw [habs] at hm
  cases hm

/-- C10: the block content hash is computed over exactly the six fields
entity id, sensor, block index, ISO timestamp, signals and previous
hash — two blocks agreeing on those six fields hash identically no
matter how their `delta`, `collection_time_ms`, `sensor_version`,
`node_id` or `observed_at_unix` differ — and consequently overwriting
any of those five excluded fields of a stored block is not reported as a
break by `verify_chain`. -/
theorem C10_hash_covers_six_fields :
    (∀ b1 b2 : Block, b1.entity_id = b2.entity_id → b1.sensor = b2.sensor →
      b1.block_index = b2.block_index → b1.observed_at = b2.observed_at →
      b1.signals = b2.signals → b1.prev_hash = b2.prev_hash →
      b1.computeHash = b2.computeHash) ∧
    (∀ (entity_id : String) (inputs : List ObsInput) (pos : Nat)
      (d : List DeltaEntry) (ct : Rat) (sv ni : String) (ux : Rat)
      (limit : Nat),
      (verify_chain (mutateMeta (runCreates entity_id inputs) pos d ct sv ni ux)
        limit).breaks = []) :=
  ⟨fun b1 b2 h1 h2 h3 h4 h5 h6 => by
      unfold Block.computeHash
      rw [h1, h2, h3, h4, h5, h6],
   fun entity_id inputs pos d ct sv ni ux limit =>
    verify_chain_meta_zero (chainInv_runCreates entity_id inputs)
      pos d ct sv ni ux limit⟩

/-- A pair of blocks agreeing on the six hashed fields but differing in
all five unhashed ones. -/
def c10blockA : Block :=
  { entity_id := "stripe.com", sensor := "dns", block_index := 0,
    observed_at := "2026-01-01T00:00:00+00:00", observed_at_unix := 0,
    signals := [("dns_has_spf", .vb true)], prev_hash := .genesis,
    block_hash := .genesis, delta := [], collection_time_ms := 0,
    node_id := "node-0" }

def c10blockB : Block :=
  { c10blockA with
    delta := [{ key := "dns_has_spf", was := none, now := some (.vb true) }],
    collection_time_ms := 125, sensor_version := "9.9.9",
    node_id := "node-7", observed_at_unix := 1767225600 }

theorem C10_witness :
    Block.computeHash c10blockA = Block.computeHash c10blockB ∧
    (verify_chain (mutateMeta (runCreates "stripe.com" c6inputs) 0
      [{ key := "x", was := none, now := none }] 125 "9.9.9" "node-7" 42)
      100).breaks = [] :=
  ⟨C10_hash_covers_six_fields.1 c10blockA c10blockB rfl rfl rfl rfl rfl rfl,
   C10_hash_covers_six_fields.2 "stripe.com" c6inputs 0
     [{ key := "x", was := none, now := none }] 125 "9.9.9" "node-7" 42 100⟩

/-- C8 counterexample: storing the empty dict for `example.com` under
the unregistered tier and reading it back one second later does NOT
return the stored dict — `set` injected `_cached_at` and `_ttl` into it
and `get` adds `_cache = "hit"`, so the round trip returns a dict with
three extra keys. -/
theorem C8_counterexample :
    cacheGet (cacheSet {} 0 "example.com" CObj.nil false false false) 1
        "example.com" =
      some (((CObj.nil.set "_cached_at" (.vq 0)).set "_ttl"
        (.vi 21600)).set "_cache" (.vs "hit")) ∧
    cacheGet (cacheSet {} 0 "example.com" CObj.nil false false false) 1
        "example.com" ≠ some CObj.nil := by
  have h := cacheSet_get_hit {} 0 1 "example.com" CObj.nil false false false
    (by norm_num [chooseTTL, TTL_UNREGISTERED])
  constructor
  · rw [h]
    rfl
  · rw [h]
    decide

/-- C8 (amended): for every prior cache state, target, result dict and
tier, a `set` followed by a `get` before the tier TTL expires returns
the stored result AUGMENTED with the bookkeeping keys `_cached_at` and
`_ttl` (added by `set`) and `_cache = "hit"` (added by `get`); every
other key still maps to the value the caller stored. -/
theorem C8_roundtrip_with_metadata (st : CacheState) (t u : Rat)
    (target : String) (result : CObj) (is_registered is_preview failed : Bool)
    (h : u < t + ((chooseTTL is_registered is_preview failed : Int) : Rat)) :
    cacheGet (cacheSet st t target result is_registered is_preview failed) u
        target =
      some (((result.set "_cached_at" (.vq t)).set "_ttl"
        (.vi (chooseTTL is_registered is_preview failed))).set "_cache"
        (.vs "hit")) ∧
    ∀ k, k ≠ "_cached_at" → k ≠ "_ttl" → k ≠ "_cache" →
      ((((result.set "_cached_at" (.vq t)).set "_ttl"
        (.vi (chooseTTL is_registered is_preview failed))).set "_cache"
        (.vs "hit")).get k) = result.get k := by
  refine ⟨cacheSet_get_hit st t u target result _ _ _ h, ?_⟩
  intro k h1 h2 h3
  rw [cobj_get_set_ne _ _ _ _ (Ne.symm h3), cobj_get_set_ne _ _ _ _
    (Ne.symm h2), cobj_get_set_ne _ _ _ _ (Ne.symm h1)]

theorem C8_witness :
    cacheGet (cacheSet {} 0 "example.com" (mkObj [("score", CVal.vi 720)])
        false false false) 1 "example.com" =
      some ((((mkObj [("score", CVal.vi 720)]).set "_cached_at"
        (.vq 0)).set "_ttl" (.vi (chooseTTL false false false))).set "_cache"
        (.vs "hit")) ∧
    ((((mkObj [("score", CVal.vi 720)]).set "_cached_at" (.vq 0)).set "_ttl"
      (.vi (chooseTTL false false false))).set "_cache" (.vs "hit")).get
      "score" = (mkObj [("score", CVal.vi 720)]).get "score" := by
  have h := C8_roundtrip_with_metadata {} 0 1 "example.com"
    (mkObj [("score", CVal.vi 720)]) false false false
    (by norm_num [chooseTTL, TTL_UNREGISTERED])
  exact ⟨h.1, h.2 "score" (by decide) (by decide) (by decide)⟩

/-- C9 counterexample: when the `score_entity` body raises, the entry
point returns a degraded dict (score 0, explicit `error` field) but the
cache is left UNCHANGED — no failed-tier entry is stored, contrary to
the claim that both entry points cache their degraded result. -/
theorem C9_counterexample :
    (score_entity_model {} 0 "example.com" false true
      (.exn "boom")).1.get "error" = some (.vs "boom") ∧
    (score_entity_model {} 0 "example.com" false true
      (.exn "boom")).1.get "score" = some (.vi 0) ∧
    (score_entity_model {} 0 "example.com" false true
      (.exn "boom")).2 = ({} : CacheState) ∧
    cacheGet (score_entity_model {} 0 "example.com" false true
      (.exn "boom")).2 1 "example.com" = none := by
  refine ⟨by decide, by decide, by decide, by decide⟩

/-- C9 (amended): neither entry point propagates a body exception.  On a
cache miss with the lock granted, `compute_trust_score` returns the v1
empty-signal fallback (score 143, `data_freshness = "failed"`) with the
error recorded under `_pipeline`, and stores that degraded result under
the failed-tier TTL (300 s) before returning — a `get` before that TTL
expires serves it.  `score_entity` returns a fixed degraded dict with
score 0 and an explicit `error` field but does NOT store it: the cache
state is returned unchanged. -/
theorem C9_exception_handling :
    (∀ (st : CacheState) (t now : Rat) (nowIso target e : String)
       (is_preview : Bool) (u : Rat),
      cacheGet st t target = none → u < t + (300 : Rat) →
      ((compute_trust_score_model st t now nowIso target false is_preview true
          (.exn e)).1.get "_pipeline" =
        some (.vobj (mkObj [("source", .vs "fallback"), ("error", .vs e)])) ∧
       (compute_trust_score_model st t now nowIso target false is_preview true
          (.exn e)).1.get "data_freshness" = some (.vs "failed") ∧
       (compute_trust_score_model st t now nowIso target false is_preview true
          (.exn e)).1.get "score" = some (.vi 143) ∧
       cacheGet (compute_trust_score_model st t now nowIso target false
          is_preview true (.exn e)).2 u target =
        some ((compute_trust_score_model st t now nowIso target false
          is_preview true (.exn e)).1.set "_cache" (.vs "hit")))) ∧
    (∀ (st : CacheState) (t : Rat) (target e : String),
      cacheGet st t target = none →
      ((score_entity_model st t target false true (.exn e)).1.get "error" =
        some (.vs e) ∧
       (score_entity_model st t target false true (.exn e)).1.get "score" =
        some (.vi 0) ∧
       (score_entity_model st t target false true (.exn e)).2 = st)) := by
  constructor
  · intro st t now nowIso target e ip u hmiss hu
    have hsc : (calculate_trust_score ("error:" ++ hexDigest target) target
        "unknown" false false none none none none none "failed"
        (some ["none"]) now nowIso).score = 143 := by
      simp only [calculate_trust_score, identityCalculate, competenceCalculate,
        solvencyCalculate, reputationCalculate, networkCalculate,
        countDataPoints, tierScore, Option.getD,
        if_neg (show ("stable" : String) = "improving" → False by decide),
        if_neg (show ("stable" : String) = "declining" → False by decide)]
      norm_num
    have hdf : (calculate_trust_score ("error:" ++ hexDigest target) target
        "unknown" false false none none none none none "failed"
        (some ["none"]) now nowIso).data_freshness = "failed" := rfl
    simp only [compute_trust_score_model, hmiss, reduceIte, ite_self]
    refine ⟨?_, ?_, ?_, ?_⟩
    · rw [withCacheMeta, cobj_get_set_ne _ _ _ _ (by decide),
        cobj_get_set_ne _ _ _ _ (by decide), cobj_get_set_self]
    · rw [withCacheMeta, cobj_get_set_ne _ _ _ _ (by decide),
        cobj_get_set_ne _ _ _ _ (by decide),
        cobj_get_set_ne _ _ _ _ (by decide), TrustScoreV1.toFull,
        cobj_get_set_ne _ _ _ _ (by decide)]
      simp [TrustScoreV1.toDict, mkObj, CObj.get, hdf]
    · rw [withCacheMeta, cobj_get_set_ne _ _ _ _ (by decide),
        cobj_get_set_ne _ _ _ _ (by decide),
        cobj_get_set_ne _ _ _ _ (by decide), TrustScoreV1.toFull,
        cobj_get_set_ne _ _ _ _ (by decide)]
      simp [TrustScoreV1.toDict, mkObj, CObj.get, hsc]
    · exact cacheSet_get_hit st t u target _ false false true
        (by simpa [chooseTTL, TTL_FAILED] using hu)
  · intro st t target e hmiss
    simp only [score_entity_model, hmiss, reduceIte, ite_self]
    refine ⟨?_, ?_, trivial⟩
    · simp [mkObj, CObj.get]
    · simp [mkObj, CObj.get]

theorem C9_witness :
    ((compute_trust_score_model {} 0 0 "ts" "example.com" false false true
        (.exn "boom")).1.get "_pipeline" =
      some (.vobj (mkObj [("source", .vs "fallback"),
        ("error", .vs "boom")]))) ∧
    ((compute_trust_score_model {} 0 0 "ts" "example.com" false false true
        (.exn "boom")).1.get "score" = some (.vi 143)) ∧
    (cacheGet (compute_trust_score_model {} 0 0 "ts" "example.com" false false
        true (.exn "boom")).2 1 "example.com" =
      some ((compute_trust_score_model {} 0 0 "ts" "example.com" false false
        true (.exn "boom")).1.set "_cache" (.vs "hit"))) ∧
    ((score_entity_model {} 0 "example.com" false true
        (.exn "boom")).1.get "error" = some (.vs "boom")) ∧
    ((score_entity_model {} 0 "example.com" false true
        (.exn "boom")).2 = ({} : CacheState)) := by
  have h1 := C9_exception_handling.1 {} 0 0 "ts" "example.com" "boom" false 1
    rfl (by norm_num)
  have h2 := C9_exception_handling.2 {} 0 "example.com" "boom" rfl
  exact ⟨h1.1, h1.2.2.1, h1.2.2.2, h2.1, h2.2.2⟩
